import Mathlib

/-!
Verification development for the vapor-liquid-equilibrium / cubic-EOS core of the
Sindri repository (Sindri/EOSMixture.py and TPCAE/VLE.py), shallowly embedded over
the exact rationals. Floating point arithmetic is modelled exactly by rational
arithmetic; calls into modules that are not part of the embedded core (numpy
transcendental functions, the mixing-rule strategy objects, the cubic root solver
polyEqSolver.solve_cubic, the UNIFAC activity model, substance saturation data)
enter as explicit oracle parameters. Rational division is total with x / 0 = 0, so
wherever a claim is about division by zero we track the executed denominators
explicitly rather than relying on the division operator. Python exceptions are
embedded as Except outcomes: the asserts, the flash domain ValueError, the
ValueError that np.max and np.min raise on a zero-size array, and the
UnboundLocalError raised when a variable that is only assigned inside a loop body
is read after a run of zero iterations (such loop-local variables are modelled as
Option values, none standing for the still-unbound Python local).
-/

/-- DBL_EPSILON of constants.py: the IEEE-754 double-precision machine epsilon. -/
def DBL_EPSILON : ℚ := 1 / 2 ^ 52

/-- R_IG of constants.py: the ideal gas constant. -/
def R_IG : ℚ := 8.31446261815324

/-- Elementwise product of two numpy arrays. -/
def vmul (a b : List ℚ) : List ℚ := List.zipWith (fun x y => x * y) a b

/-- Elementwise quotient of two numpy arrays. -/
def vdiv (a b : List ℚ) : List ℚ := List.zipWith (fun x y => x / y) a b

/-- np.full(n, c) and np.ones / np.zeros. -/
def vfull (n : ℕ) (c : ℚ) : List ℚ := List.replicate n c

/-- Rachford-Rice residual f of _RachfordRice (Sindri/EOSMixture.py line 1112):
f = np.sum(z * (k - 1.0) / (1.0 + v0 * (k - 1.0))). -/
def rrf (k z : List ℚ) (v : ℚ) : ℚ :=
  (List.zipWith (fun zi ki => zi * (ki - 1) / (1 + v * (ki - 1))) z k).sum

/-- Derivative dfdv of _RachfordRice (Sindri/EOSMixture.py line 1113):
dfdv = -np.sum(z * (k - 1.0) ** 2 / (1.0 + v0 * (k - 1.0)) ** 2). -/
def rrdfdv (k z : List ℚ) (v : ℚ) : ℚ :=
  -(List.zipWith (fun zi ki => zi * (ki - 1) ^ 2 / (1 + v * (ki - 1)) ^ 2) z k).sum

/-- One Newton update v1 = v0 - f / dfdv of _RachfordRice (Sindri/EOSMixture.py line 1114). -/
def rrNewton (k z : List ℚ) (v : ℚ) : ℚ := v - rrf k z v / rrdfdv k z v

/-- Loop of _RachfordRice (Sindri/EOSMixture.py lines 1105-1117). The Python guard
is while err > tol or iter > kmax - an OR - so the loop keeps running unless
err <= tol and iter <= kmax hold together; fuel turns this possibly endless loop
into a total function, none standing for a run that is still looping when the fuel
is gone. -/
def rachfordRiceGo (k z : List ℚ) (tol : ℚ) (kmax : ℤ) :
    ℕ → ℚ → ℚ → ℚ → ℤ → Option ℚ
  | 0, err, _, v1, iter => if tol < err ∨ kmax < iter then none else some v1
  | fuel + 1, err, v0, v1, iter =>
      if tol < err ∨ kmax < iter then
        let v1n := rrNewton k z v0
        rachfordRiceGo k z tol kmax fuel |v0 - v1n| v1n v1n (iter + 1)
      else some v1

/-- _RachfordRice (Sindri/EOSMixture.py lines 1102-1117), with the source
initialisation v0 = v, v1 = 999.0, err = 1000.0, iter = 0. -/
def RachfordRice (v : ℚ) (k z : List ℚ) (tol : ℚ) (kmax : ℤ) (fuel : ℕ) : Option ℚ :=
  rachfordRiceGo k z tol kmax fuel 1000 v 999 0

/-- Residual f of the TPCAE _RachfordRice (TPCAE/VLE.py line 240); the source
expression is textually the same as in the Sindri variant. -/
def rrfT (k z : List ℚ) (v : ℚ) : ℚ :=
  (List.zipWith (fun zi ki => zi * (ki - 1) / (1 + v * (ki - 1))) z k).sum

/-- dfdv of the TPCAE _RachfordRice (TPCAE/VLE.py line 241):
dfdv = -np.sum(z * (k - 1) ** 2 / (1 + v0 * (k - 1) ** 2)); note that the square
sits on (k - 1) alone inside the denominator, unlike the Sindri variant where the
whole factor (1 + v0 * (k - 1)) is squared. -/
def rrdfdvT (k z : List ℚ) (v : ℚ) : ℚ :=
  -(List.zipWith (fun zi ki => zi * (ki - 1) ^ 2 / (1 + v * (ki - 1) ^ 2)) z k).sum

/-- Newton update of the TPCAE _RachfordRice (TPCAE/VLE.py line 242). -/
def rrNewtonT (k z : List ℚ) (v : ℚ) : ℚ := v - rrfT k z v / rrdfdvT k z v

/-- Loop of the TPCAE _RachfordRice (TPCAE/VLE.py lines 233-245); same OR guard as
the Sindri variant. -/
def rachfordRiceGoT (k z : List ℚ) (tol : ℚ) (kmax : ℤ) :
    ℕ → ℚ → ℚ → ℚ → ℤ → Option ℚ
  | 0, err, _, v1, iter => if tol < err ∨ kmax < iter then none else some v1
  | fuel + 1, err, v0, v1, iter =>
      if tol < err ∨ kmax < iter then
        let v1n := rrNewtonT k z v0
        rachfordRiceGoT k z tol kmax fuel |v0 - v1n| v1n v1n (iter + 1)
      else some v1

/-- _RachfordRice of TPCAE/VLE.py (lines 230-245). -/
def RachfordRiceT (v : ℚ) (k z : List ℚ) (tol : ℚ) (kmax : ℤ) (fuel : ℕ) : Option ℚ :=
  rachfordRiceGoT k z tol kmax fuel 1000 v 999 0

/-- Model of _getZfromPT_helper (Sindri/EOSMixture.py lines 1177-1196). The external
cubic root solver polyEqSolver.solve_cubic (not part of the embedded core) is a
parameter; the coefficient construction and the non-negativity filter are the
embedded code. -/
def getZfromPT_helper (solve_cubic : ℚ → ℚ → ℚ → ℚ → List ℚ)
    (b theta delta epsilon T P R : ℚ) : List ℚ :=
  let Bl := b * P / (R * T)
  let deltal := delta * P / (R * T)
  let epsilonl := epsilon * (P / (R * T)) ^ 2
  let thetal := theta * P / (R * T) ^ 2
  let cb := deltal - Bl - 1
  let cc := thetal + epsilonl - deltal * (1 + Bl)
  let cd := -(epsilonl * (Bl + 1) + Bl * thetal)
  (solve_cubic 1 cb cc cd).filter (fun r => decide (0 ≤ r))

/-- Outcome of one _getPhi_i_helper evaluation: which branch ran, every denominator
the executed branch divides by, and the returned value. -/
structure PhiEval where
  usedLimitingForm : Bool
  denominators : List ℚ
  value : ℚ

/-- Model of _getPhi_i_helper (Sindri/EOSMixture.py lines 1217-1264). The numpy
transcendentals np.sqrt, np.log, np.exp and the fractional power
np.power(x, 1.5) are oracle parameters (pow15O). Besides evaluating the branch the
model records the list of denominators the executed branch divides by, in source
order: V = RT * Z / P divides by P; the limiting branch then divides by
V + deltam / 2, RT, V - bm and V; the general branch divides by the square root of
deltam^2 - 4 epsilonm, RT, 2 (deltam^2 - 4 epsilonm)^1.5, the factors
2V + deltam minus sqrt and 2V + deltam plus sqrt, V - bm and V. -/
def getPhi_i_helper (sqrtO logO expO pow15O : ℚ → ℚ)
    (P T Z R bm thetam deltam epsilonm diffthetam diffbm diffdeltam diffepsilonm
      dblEps : ℚ) : PhiEval :=
  let RT := R * T
  let V := RT * Z / P
  let d24 := deltam * deltam - 4 * epsilonm
  let deltaN := deltam * diffdeltam * 2 - 4 * diffepsilonm
  if |d24| < 100 * dblEps then
    let substitute_term := -1 / (V + deltam / 2)
    let first_term := substitute_term * diffthetam / RT
    let last_term := diffbm / (V - bm) - logO ((V - bm) / V) - logO Z
    { usedLimitingForm := true
      denominators := [P, V + deltam / 2, RT, V - bm, V]
      value := expO (first_term + last_term) }
  else
    let sq := sqrtO d24
    let tm := 2 * V + deltam - sq
    let tp := 2 * V + deltam + sq
    let firstline := 1 / sq * (diffthetam / RT) - thetam / RT * deltaN / (2 * pow15O d24)
    let secline_p1 := logO (tm / tp)
    let secline_p2 := thetam / RT / sq
    let thirdline :=
      (diffdeltam - deltaN / (2 * sq)) / tm - (diffdeltam + deltaN / (2 * sq)) / tp
    let fourthline := diffbm / (V - bm) - logO ((V - bm) / V) - logO Z
    { usedLimitingForm := false
      denominators := [P, sq, RT, 2 * pow15O d24, tm, tp, V - bm, V]
      value := expO (firstline * secline_p1 + secline_p2 * thirdline + fourthline) }

/-- Python exception outcomes of the solver layer. assertError models a failing
assert statement; valueError the flash domain ValueError (P is not between Pdew
and Pbubble); zeroSizeArrayError the distinct ValueError that np.max and np.min
raise on a zero-size array (zero-size array to reduction operation);
unboundLocalError the UnboundLocalError raised when a local variable that is only
assigned inside a loop body is read after the loop ran zero iterations;
notImplementedError the vle_method dispatch fallthrough. nonTermination is not a
Python exception: it marks a run whose inner Rachford-Rice loop was still running
when its fuel ran out (the source would still be looping). -/
inductive PyError
  | assertError
  | valueError
  | zeroSizeArrayError
  | unboundLocalError
  | notImplementedError
  | nonTermination
deriving DecidableEq

instance {ε α : Type} [DecidableEq ε] [DecidableEq α] : DecidableEq (Except ε α) :=
  fun a b =>
    match a, b with
    | .ok x, .ok y =>
        if h : x = y then .isTrue (congrArg Except.ok h)
        else .isFalse (fun hab => h (Except.ok.inj hab))
    | .error x, .error y =>
        if h : x = y then .isTrue (congrArg Except.error h)
        else .isFalse (fun hab => h (Except.error.inj hab))
    | .ok _, .error _ => .isFalse (fun hab => Except.noConfusion hab)
    | .error _, .ok _ => .isFalse (fun hab => Except.noConfusion hab)

/-- np.max of an array: its maximum, or the zero-size-array ValueError on an empty
array (numpy raises ValueError: zero-size array to reduction operation). -/
def npMax : List ℚ → Except PyError ℚ
  | [] => .error .zeroSizeArrayError
  | a :: t => .ok (t.foldl max a)

/-- np.min of an array: its minimum, or the zero-size-array ValueError on an empty
array. -/
def npMin : List ℚ → Except PyError ℚ
  | [] => .error .zeroSizeArrayError
  | a :: t => .ok (t.foldl min a)

/-- A Python for-loop filling an array from per-index computations that may raise:
the indices are evaluated left to right and the first raised exception propagates. -/
def pyTraverse (f : ℕ → Except PyError ℚ) : List ℕ → Except PyError (List ℚ)
  | [] => .ok []
  | i :: t =>
      match f i with
      | .error e => .error e
      | .ok v =>
          match pyTraverse f t with
          | .error e => .error e
          | .ok vs => .ok (v :: vs)

/-- Result tuple of the pressure and temperature equilibrium solvers:
(other-phase composition, unknown P or T, phivap, philiq or gamma, k, iterations). -/
abbrev EqResult := List ℚ × ℚ × List ℚ × List ℚ × List ℚ × ℕ

/-- Result tuple of the flash solvers:
(x, y, vapor fraction, phivap, philiq or gamma, k, iterations). -/
abbrev FlashResult := List ℚ × List ℚ × ℚ × List ℚ × List ℚ × List ℚ × ℕ

/-- Model of the EOSMixture object state (Sindri/EOSMixture.py lines 71-114).
The numeric per-substance constants and the two mode fields are carried directly;
everything the class delegates to excluded collaborators is an oracle field:
expO and logO stand for np.exp and np.log; sqrtO and pow15O for np.sqrt and
np.power(x, 1.5); bmO, thetamO, deltamO, epsilonmO and the four diff oracles for
the mixing-rule strategy objects of MixtureRules (external to the embedded core);
solve_cubicO for polyEqSolver.solve_cubic; gammaO for UNIFAC.getGamma; psatO for
getPsat (per-substance Antoine or saturation solve, external data); tsatO for
getTsat. -/
structure EOSMixtureM where
  n : ℕ
  Pcs : List ℚ
  Tcs : List ℚ
  omegas : List ℚ
  Tbs : List ℚ
  subs_ids : List ℕ
  vle_method : String
  has_UNIFAC : Bool
  expO : ℚ → ℚ
  logO : ℚ → ℚ
  sqrtO : ℚ → ℚ
  pow15O : ℚ → ℚ
  bmO : List ℚ → ℚ → ℚ
  thetamO : List ℚ → ℚ → ℚ
  deltamO : List ℚ → ℚ → ℚ
  epsilonmO : List ℚ → ℚ → ℚ
  diffThetamO : ℕ → List ℚ → ℚ → ℚ
  diffBmO : ℕ → List ℚ → ℚ → ℚ
  diffDeltamO : ℕ → List ℚ → ℚ → ℚ
  diffEpsilonmO : ℕ → List ℚ → ℚ → ℚ
  solve_cubicO : ℚ → ℚ → ℚ → ℚ → List ℚ
  gammaO : List ℚ → ℚ → List ℚ
  psatO : ℚ → List ℚ
  tsatO : ℚ → List ℚ

/-- hasUNIFAC (Sindri/EOSMixture.py lines 111-114); has_unifac_in_db is the
external database query of Models.LiquidModel. -/
def hasUNIFAC (has_unifac_in_db : List ℕ → Bool) (subs_ids : List ℕ) : Bool :=
  if subs_ids.length < 2 then false else has_unifac_in_db subs_ids

/-- The part of EOSMixture.__init__ (lines 99-100) that fixes the two mode fields:
vle_method starts as phi-phi and has_UNIFAC is the hasUNIFAC feasibility check. -/
def mkEOSMixture (base : EOSMixtureM) (has_unifac_in_db : List ℕ → Bool) : EOSMixtureM :=
  { base with
    vle_method := "phi-phi"
    has_UNIFAC := hasUNIFAC has_unifac_in_db base.subs_ids }

/-- setVLEmethod (Sindri/EOSMixture.py lines 1061-1065). -/
def EOSMixtureM.setVLEmethod (m : EOSMixtureM) (method : String) : EOSMixtureM :=
  if !m.has_UNIFAC then { m with vle_method := "phi-phi" }
  else { m with vle_method := method }

/-- getZfromPT (Sindri/EOSMixture.py lines 116-128): mixture parameters from the
mixing-rule oracles, then the embedded _getZfromPT_helper. -/
def EOSMixtureM.getZfromPT (m : EOSMixtureM) (P T : ℚ) (y : List ℚ) : List ℚ :=
  getZfromPT_helper m.solve_cubicO (m.bmO y T) (m.thetamO y T) (m.deltamO y T)
    (m.epsilonmO y T) T P R_IG

/-- getPhi_i (Sindri/EOSMixture.py lines 144-181): mixture parameters and their
composition derivatives from the mixing-rule oracles, then the embedded
_getPhi_i_helper. -/
def EOSMixtureM.getPhi_i (m : EOSMixtureM) (i : ℕ) (y : List ℚ) (P T Z : ℚ) : ℚ :=
  (getPhi_i_helper m.sqrtO m.logO m.expO m.pow15O P T Z R_IG (m.bmO y T)
    (m.thetamO y T) (m.deltamO y T) (m.epsilonmO y T) (m.diffThetamO i y T)
    (m.diffBmO i y T) (m.diffDeltamO i y T) (m.diffEpsilonmO i y T) DBL_EPSILON).value

/-- _helper_getPb_guess (Sindri/EOSMixture.py lines 1120-1123); np.exp is the
expO oracle. -/
def helper_getPb_guess (expO : ℚ → ℚ) (x : List ℚ) (T : ℚ) (Pcs Tcs omegas : List ℚ) : ℚ :=
  (List.zipWith (fun xi pto => xi * pto.1 * expO (5.373 * (1 + pto.2.2) * (1 - pto.2.1 / T)))
    x (Pcs.zip (Tcs.zip omegas))).sum

/-- _helper_getPd_guess (Sindri/EOSMixture.py lines 1126-1129). -/
def helper_getPd_guess (expO : ℚ → ℚ) (y : List ℚ) (T : ℚ) (Pcs Tcs omegas : List ℚ) : ℚ :=
  1 / (List.zipWith (fun yi pto => yi / (pto.1 * expO (5.373 * (1 + pto.2.2) * (1 - pto.2.1 / T))))
    y (Pcs.zip (Tcs.zip omegas))).sum

/-- Wilson-correlation K-value initialisation
k = np.exp(np.log(Pcs / p) + 5.373 * (1 + omegas) * (1.0 - Tcs / T)), the inline
expression at Sindri/EOSMixture.py lines 446-448 and its siblings. -/
def wilsonK (expO logO : ℚ → ℚ) (Pcs Tcs omegas : List ℚ) (p T : ℚ) : List ℚ :=
  List.zipWith (fun pc tw => expO (logO (pc / p) + 5.373 * (1 + tw.2) * (1 - tw.1 / T)))
    Pcs (Tcs.zip omegas)

/-- getPhiVap (Sindri/EOSMixture.py lines 381-387): zvap = np.max(zsvap) runs
before the fill loop, so an empty Z-root set raises the zero-size-array
ValueError. -/
def EOSMixtureM.getPhiVap (m : EOSMixtureM) (y : List ℚ) (P T : ℚ) :
    Except PyError (List ℚ) :=
  match npMax (m.getZfromPT P T y) with
  | .error e => .error e
  | .ok zvap => .ok ((List.range m.n).map fun i => m.getPhi_i i y P T zvap)

/-- getCapPhi_i (Sindri/EOSMixture.py lines 336-338): np.max of the Z-root set,
raising on an empty set. -/
def EOSMixtureM.getCapPhi_i (m : EOSMixtureM) (i : ℕ) (y : List ℚ) (P T : ℚ) :
    Except PyError ℚ :=
  match npMax (m.getZfromPT P T y) with
  | .error e => .error e
  | .ok zv => .ok (m.getPhi_i i y P T zv)

/-- getCapPhi (Sindri/EOSMixture.py lines 389-393): a for-loop over range(n)
filling capphi from getCapPhi_i, so the first raising index propagates (and with
n = 0 no call is made). -/
def EOSMixtureM.getCapPhi (m : EOSMixtureM) (y : List ℚ) (P T : ℚ) :
    Except PyError (List ℚ) :=
  pyTraverse (fun i => m.getCapPhi_i i y P T) (List.range m.n)

/-- get_y_eq_12_9 (Sindri/EOSMixture.py lines 375-376). -/
def get_y_eq_12_9 (x gamma Psat capphi : List ℚ) (p : ℚ) : List ℚ :=
  vdiv (vmul (vmul x gamma) Psat) (capphi.map (fun c => c * p))

/-- get_P_eq_12_11 (Sindri/EOSMixture.py lines 378-379). -/
def get_P_eq_12_11 (x gamma Psat capphi : List ℚ) : ℚ :=
  (vdiv (vmul (vmul x gamma) Psat) capphi).sum

/-- getP_eq_12_12 (Sindri/EOSMixture.py lines 529-530). -/
def getP_eq_12_12 (y gamma Psat capphi : List ℚ) : ℚ :=
  1 / (vdiv (vmul y capphi) (vmul gamma Psat)).sum

/-- get_x_eq_12_10 (Sindri/EOSMixture.py lines 532-533). -/
def get_x_eq_12_10 (y gamma Psat capphi : List ℚ) (p : ℚ) : List ℚ :=
  vdiv ((vmul y capphi).map (fun c => c * p)) (vmul gamma Psat)

/-- get_k_gamma_phi (Sindri/EOSMixture.py lines 583-585). -/
def get_k_gamma_phi (gamma psat : List ℚ) (P : ℚ) (capphi : List ℚ) : List ℚ :=
  vdiv (vmul gamma psat) (capphi.map (fun c => P * c))

/-- The shared solver iteration skeleton while err > tol and ite < kmax of the
equilibrium solvers (e.g. Sindri/EOSMixture.py lines 457-474), in fuel-counting
form: the fuel argument is kmax - ite, so the loop runs the body while err > tol
and fuel is left, counting ite upward from its third argument. A body evaluation
may raise (np.max or np.min on an empty Z-root set, or - for the flash bodies -
the inner Rachford-Rice loop whose fuel ran out); the exception propagates out of
the loop. -/
def vleLoopAux {σ : Type} (body : σ → Except PyError (σ × ℚ)) (tol : ℚ) :
    ℕ → σ → ℚ → ℕ → Except PyError (σ × ℚ × ℕ)
  | 0, s, err, ite => .ok (s, err, ite)
  | rem + 1, s, err, ite =>
      if tol < err then
        match body s with
        | .error e => .error e
        | .ok p => vleLoopAux body tol rem p.1 p.2 (ite + 1)
      else .ok (s, err, ite)

/-- The solver loop started with iteration count 0, as in the source. -/
def vleLoop {σ : Type} (body : σ → Except PyError (σ × ℚ)) (tol : ℚ) (kmax : ℕ)
    (s : σ) (err0 : ℚ) : Except PyError (σ × ℚ × ℕ) :=
  vleLoopAux body tol kmax s err0 0

/-- Loop state of getBubblePointPressure_phi_phi: the variables assigned in the
while body (Sindri/EOSMixture.py lines 457-474). -/
structure BubblePSt where
  pb : ℚ
  y : List ℚ
  k : List ℚ
  phivap : List ℚ
  philiq : List ℚ

/-- Loop body of getBubblePointPressure_phi_phi (lines 457-474): Z roots of both
phases, zvap = np.max and zliq = np.min (raising in that order on an empty root
set), componentwise fugacity coefficients, k = philiq / phivap, y = x * k,
pb = pb * sum(y), err = abs(1 - sum(y)). -/
def bubblePBody (m : EOSMixtureM) (x : List ℚ) (T : ℚ) (s : BubblePSt) :
    Except PyError (BubblePSt × ℚ) :=
  match npMax (m.getZfromPT s.pb T s.y) with
  | .error e => .error e
  | .ok zvap =>
      match npMin (m.getZfromPT s.pb T x) with
      | .error e => .error e
      | .ok zliq =>
          let phivap := (List.range m.n).map fun i => m.getPhi_i i s.y s.pb T zvap
          let philiq := (List.range m.n).map fun i => m.getPhi_i i x s.pb T zliq
          let k := vdiv philiq phivap
          let y := vmul x k
          let yt := y.sum
          .ok (⟨s.pb * yt, y, k, phivap, philiq⟩, |1 - yt|)

/-- Pre-loop state of getBubblePointPressure_phi_phi (lines 444-455): Wilson pb
guess and K guess, y = x * k / sum(x * k), np.empty arrays modelled as zeros. -/
def bubblePInit (m : EOSMixtureM) (x : List ℚ) (T : ℚ) : BubblePSt :=
  let pb := helper_getPb_guess m.expO x T m.Pcs m.Tcs m.omegas
  let k := wilsonK m.expO m.logO m.Pcs m.Tcs m.omegas pb T
  let xk := vmul x k
  let y := xk.map (fun c => c / xk.sum)
  ⟨pb, y, k, vfull m.n 0, vfull m.n 0⟩

/-- Result tuple assembled at Sindri/EOSMixture.py line 476. -/
def bubblePResultOf (r : BubblePSt × ℚ × ℕ) : EqResult :=
  (r.1.y, r.1.pb, r.1.phivap, r.1.philiq, r.1.k, r.2.2)

/-- getBubblePointPressure_phi_phi (Sindri/EOSMixture.py lines 438-476). The two
leading assert statements become assertError outcomes; note the sum check is the
exact equality np.sum(x) == 1.0 of line 441. -/
def EOSMixtureM.getBubblePointPressure_phi_phi (m : EOSMixtureM) (x : List ℚ)
    (T tol : ℚ) (kmax : ℕ) : Except PyError EqResult :=
  if x.length ≠ m.n then .error .assertError
  else if x.sum ≠ 1 then .error .assertError
  else
    match vleLoop (bubblePBody m x T) tol kmax (bubblePInit m x T) 100 with
    | .error e => .error e
    | .ok r => .ok (bubblePResultOf r)

/-- Loop state of getDewPointPressure_phi_phi (lines 507-525). -/
structure DewPSt where
  pd : ℚ
  x : List ℚ
  k : List ℚ
  phivap : List ℚ
  philiq : List ℚ

/-- Loop body of getDewPointPressure_phi_phi (lines 507-525): x = y / k,
pd = pd / sum(x), err = abs(1 - sum(x)), x renormalised; zvap = np.max and
zliq = np.min raise in that order on an empty root set. -/
def dewPBody (m : EOSMixtureM) (y : List ℚ) (T : ℚ) (s : DewPSt) :
    Except PyError (DewPSt × ℚ) :=
  match npMax (m.getZfromPT s.pd T y) with
  | .error e => .error e
  | .ok zvap =>
      match npMin (m.getZfromPT s.pd T s.x) with
      | .error e => .error e
      | .ok zliq =>
          let phivap := (List.range m.n).map fun i => m.getPhi_i i y s.pd T zvap
          let philiq := (List.range m.n).map fun i => m.getPhi_i i s.x s.pd T zliq
          let k := vdiv philiq phivap
          let x := vdiv y k
          let xt := x.sum
          .ok (⟨s.pd / xt, x.map (fun c => c / xt), k, phivap, philiq⟩, |1 - xt|)

/-- Pre-loop state of getDewPointPressure_phi_phi (lines 492-504). -/
def dewPInit (m : EOSMixtureM) (y : List ℚ) (T : ℚ) : DewPSt :=
  let pd := helper_getPd_guess m.expO y T m.Pcs m.Tcs m.omegas
  let k := wilsonK m.expO m.logO m.Pcs m.Tcs m.omegas pd T
  let x0 := vdiv y k
  let x := x0.map (fun c => c / x0.sum)
  ⟨pd, x, k, vfull m.n 0, vfull m.n 0⟩

/-- Result tuple assembled at Sindri/EOSMixture.py line 527. -/
def dewPResultOf (r : DewPSt × ℚ × ℕ) : EqResult :=
  (r.1.x, r.1.pd, r.1.phivap, r.1.philiq, r.1.k, r.2.2)

/-- getDewPointPressure_phi_phi (Sindri/EOSMixture.py lines 488-527). -/
def EOSMixtureM.getDewPointPressure_phi_phi (m : EOSMixtureM) (y : List ℚ)
    (T tol : ℚ) (kmax : ℕ) : Except PyError EqResult :=
  if y.length ≠ m.n then .error .assertError
  else if y.sum ≠ 1 then .error .assertError
  else
    match vleLoop (dewPBody m y T) tol kmax (dewPInit m y T) 100 with
    | .error e => .error e
    | .ok r => .ok (dewPResultOf r)

/-- Loop state of getBubblePointPressure_UNIFAC (lines 426-432). The vapor
composition y is only assigned inside the loop body in the source, so it is
carried as an Option: none is the still-unbound Python local, and reading it
after a run of zero iterations raises UnboundLocalError (at line 434). -/
structure BubblePUSt where
  pb : ℚ
  y : Option (List ℚ)
  capphi : List ℚ

/-- Loop body of getBubblePointPressure_UNIFAC (lines 426-432); getCapPhi may
raise on an empty Z-root set. The body assigns y, so after any iteration the
state holds some y. -/
def bubblePUBody (m : EOSMixtureM) (x gamma PSat : List ℚ) (T : ℚ)
    (s : BubblePUSt) : Except PyError (BubblePUSt × ℚ) :=
  let y := get_y_eq_12_9 x gamma PSat s.capphi s.pb
  match m.getCapPhi y s.pb T with
  | .error e => .error e
  | .ok capphi =>
      let pb := get_P_eq_12_11 x gamma PSat capphi
      .ok (⟨pb, some y, capphi⟩, |(pb - s.pb) / pb|)

/-- Pre-loop state of getBubblePointPressure_UNIFAC (lines 416-424): pb from
equation 12.11 at capphi = ones, and y still unbound (none). -/
def bubblePUInit (m : EOSMixtureM) (x : List ℚ) (T : ℚ) : BubblePUSt :=
  ⟨get_P_eq_12_11 x (m.gammaO x T) (m.psatO T) (vfull m.n 1), none, vfull m.n 1⟩

/-- Result tuple assembled at Sindri/EOSMixture.py lines 434-436, given the bound
vapor composition yv and the phivap array already computed by getPhiVap. -/
def bubblePUResultOf (m : EOSMixtureM) (x : List ℚ) (T : ℚ) (yv phivap : List ℚ)
    (r : BubblePUSt × ℚ × ℕ) : EqResult :=
  (yv, r.1.pb, phivap, m.gammaO x T,
    get_k_gamma_phi (m.gammaO x T) (m.psatO T) r.1.pb r.1.capphi, r.2.2)

/-- getBubblePointPressure_UNIFAC (Sindri/EOSMixture.py lines 411-436). After the
loop, line 434 reads y, which is only assigned inside the loop body: if the loop
ran zero iterations the read raises UnboundLocalError; otherwise getPhiVap runs
(and may itself raise on an empty Z-root set) and the result tuple is returned. -/
def EOSMixtureM.getBubblePointPressure_UNIFAC (m : EOSMixtureM) (x : List ℚ)
    (T tol : ℚ) (kmax : ℕ) : Except PyError EqResult :=
  if x.length ≠ m.n then .error .assertError
  else if x.sum ≠ 1 then .error .assertError
  else
    match vleLoop (bubblePUBody m x (m.gammaO x T) (m.psatO T) T) tol kmax
        (bubblePUInit m x T) 100 with
    | .error e => .error e
    | .ok r =>
        match r.1.y with
        | none => .error .unboundLocalError
        | some yv =>
            match m.getPhiVap yv r.1.pb T with
            | .error e => .error e
            | .ok phivap => .ok (bubblePUResultOf m x T yv phivap r)

/-- Loop state of getDewPointPressure_UNIFAC (lines 555-569). -/
structure DewPUSt where
  pd : ℚ
  x : List ℚ
  gamma : List ℚ
  capphi : List ℚ

/-- Inner loop body of getDewPointPressure_UNIFAC (lines 560-566): update x from
equation 12.10, renormalise, refresh gamma, err2 = np.max(abs(gamma change)),
which raises on a zero-size gamma array. -/
def dewPUInnerBody (m : EOSMixtureM) (y Psat capphi : List ℚ) (T pd : ℚ)
    (s : List ℚ × List ℚ) : Except PyError ((List ℚ × List ℚ) × ℚ) :=
  let x0 := get_x_eq_12_10 y s.2 Psat capphi pd
  let x := x0.map (fun c => c / x0.sum)
  let gamma := m.gammaO x T
  match npMax (List.zipWith (fun a b => |a - b|) s.2 gamma) with
  | .error e => .error e
  | .ok err2 => .ok ((x, gamma), err2)

/-- Outer loop body of getDewPointPressure_UNIFAC (lines 555-569): getCapPhi may
raise, and an exception from the inner loop propagates. -/
def dewPUBody (m : EOSMixtureM) (y Psat : List ℚ) (T : ℚ) (kmax : ℕ) (tol : ℚ)
    (s : DewPUSt) : Except PyError (DewPUSt × ℚ) :=
  match m.getCapPhi y s.pd T with
  | .error e => .error e
  | .ok capphi =>
      match vleLoop (dewPUInnerBody m y Psat capphi T s.pd) tol kmax (s.x, s.gamma) 100 with
      | .error e => .error e
      | .ok inner =>
          let x := inner.1.1
          let gamma := inner.1.2
          let pd := getP_eq_12_12 y gamma Psat capphi
          .ok (⟨pd, x, gamma, capphi⟩, |(pd - s.pd) / pd|)

/-- Pre-loop state of getDewPointPressure_UNIFAC (lines 539-550); the final
pre-loop statement capphi = getCapPhi(y, pd, T) may raise on an empty Z-root
set, before the loop is entered. -/
def dewPUInit (m : EOSMixtureM) (y : List ℚ) (T : ℚ) : Except PyError DewPUSt :=
  let Psat := m.psatO T
  let capphi0 := vfull m.n 1
  let gamma0 := vfull m.n 1
  let pd0 := getP_eq_12_12 y gamma0 Psat capphi0
  let x0 := get_x_eq_12_10 y gamma0 Psat capphi0 pd0
  let x1 := x0.map (fun c => c / x0.sum)
  let gamma1 := m.gammaO x1 T
  let pd1 := getP_eq_12_12 y gamma1 Psat capphi0
  match m.getCapPhi y pd1 T with
  | .error e => .error e
  | .ok capphi1 => .ok ⟨pd1, x1, gamma1, capphi1⟩

/-- Result tuple assembled at Sindri/EOSMixture.py lines 571-573, given the
phivap array already computed by getPhiVap. All returned variables are assigned
before the loop in the source, so no unbound read occurs here. -/
def dewPUResultOf (m : EOSMixtureM) (y : List ℚ) (T : ℚ) (phivap : List ℚ)
    (r : DewPUSt × ℚ × ℕ) : EqResult :=
  (r.1.x, r.1.pd, phivap, r.1.gamma,
    get_k_gamma_phi r.1.gamma (m.psatO T) r.1.pd r.1.capphi, r.2.2)

/-- getDewPointPressure_UNIFAC (Sindri/EOSMixture.py lines 535-573). -/
def EOSMixtureM.getDewPointPressure_UNIFAC (m : EOSMixtureM) (y : List ℚ)
    (T tol : ℚ) (kmax : ℕ) : Except PyError EqResult :=
  if y.length ≠ m.n then .error .assertError
  else if y.sum ≠ 1 then .error .assertError
  else
    match dewPUInit m y T with
    | .error e => .error e
    | .ok s0 =>
        match vleLoop (dewPUBody m y (m.psatO T) T kmax tol) tol kmax s0 100 with
        | .error e => .error e
        | .ok r =>
            match m.getPhiVap y r.1.pd T with
            | .error e => .error e
            | .ok phivap => .ok (dewPUResultOf m y T phivap r)

/-- _helper_f_for_temperature_bubble_point_guess (Sindri/EOSMixture.py lines
1132-1137). -/
def helper_f_for_temperature_bubble_point_guess (expO : ℚ → ℚ) (x : List ℚ)
    (P T : ℚ) (Pcs Tcs omegas : List ℚ) : ℚ :=
  -P + (List.zipWith (fun xi pto => pto.1 * xi * expO (5.373 * (1 + pto.2.2) * (1 - pto.2.1 / T)))
    x (Pcs.zip (Tcs.zip omegas))).sum

/-- _helper_diff_f_for_temperature_bubble_point_guess (lines 1140-1148): central
difference with h = 1e-3. -/
def helper_diff_f_for_temperature_bubble_point_guess (expO : ℚ → ℚ) (x : List ℚ)
    (P T : ℚ) (Pcs Tcs omegas : List ℚ) : ℚ :=
  let h : ℚ := 1 / 1000
  (helper_f_for_temperature_bubble_point_guess expO x P (T + h) Pcs Tcs omegas -
    helper_f_for_temperature_bubble_point_guess expO x P (T - h) Pcs Tcs omegas) / (2 * h)

/-- Newton loop of _helper_bubble_T_guess_from_wilson (lines 1162-1169), guard
while k < kmax and err < tol, fuel-counted on kmax - k. -/
def wilsonTGuessGo (expO : ℚ → ℚ) (x : List ℚ) (P : ℚ) (Pcs Tcs omegas : List ℚ) :
    ℕ → ℚ → ℚ → ℚ
  | 0, T, _ => T
  | fuel + 1, T, err =>
      if err < 1 / 10 ^ 8 then
        let told := T - helper_f_for_temperature_bubble_point_guess expO x P T Pcs Tcs omegas /
          helper_diff_f_for_temperature_bubble_point_guess expO x P T Pcs Tcs omegas
        wilsonTGuessGo expO x P Pcs Tcs omegas fuel told |T - told|
      else T

/-- _helper_bubble_T_guess_from_wilson (Sindri/EOSMixture.py lines 1151-1171):
tol = 1e-8, kmax = 1000, err starts at 999, so the guard err < tol is already
false on entry and the function returns its input T unchanged. -/
def helper_bubble_T_guess_from_wilson (expO : ℚ → ℚ) (x : List ℚ) (P T : ℚ)
    (Pcs Tcs omegas : List ℚ) : ℚ :=
  wilsonTGuessGo expO x P Pcs Tcs omegas 1000 T 999

/-- Loop state of getBubblePointTemperature_phi_phi (lines 676-700): secant pair
(tb1, f1), (tb2, f2), current tb, and the phase data. -/
structure BubbleTSt where
  tb : ℚ
  tb1 : ℚ
  tb2 : ℚ
  f1 : ℚ
  f2 : ℚ
  y : List ℚ
  k : List ℚ
  phivap : List ℚ
  philiq : List ℚ

/-- Loop body of getBubblePointTemperature_phi_phi (lines 676-700); zvap = np.max
and zliq = np.min raise in that order on an empty root set. -/
def bubbleTBody (m : EOSMixtureM) (x : List ℚ) (P : ℚ) (s : BubbleTSt) :
    Except PyError (BubbleTSt × ℚ) :=
  let tb := s.tb1 - s.f1 * ((s.tb1 - s.tb2) / (s.f1 - s.f2))
  match npMax (m.getZfromPT P tb s.y) with
  | .error e => .error e
  | .ok zvap =>
      match npMin (m.getZfromPT P tb x) with
      | .error e => .error e
      | .ok zliq =>
          let phivap := (List.range m.n).map fun i => m.getPhi_i i s.y P tb zvap
          let philiq := (List.range m.n).map fun i => m.getPhi_i i x P tb zliq
          let k := vdiv philiq phivap
          let y := vmul x k
          let yt := y.sum
          .ok (⟨tb, tb, s.tb1, (vmul k x).sum - 1, s.f1, y.map (fun c => c / yt), k,
            phivap, philiq⟩, |1 - yt|)

/-- Pre-loop state of getBubblePointTemperature_phi_phi (lines 644-673). -/
def bubbleTInit (m : EOSMixtureM) (x : List ℚ) (P : ℚ) : BubbleTSt :=
  let Tbi := m.Tbs.map (fun tb => if 0 < tb then tb else 100)
  let tb := helper_bubble_T_guess_from_wilson m.expO x P (vmul x Tbi).sum m.Pcs m.Tcs m.omegas
  let k := wilsonK m.expO m.logO m.Pcs m.Tcs m.omegas P tb
  let f2 := (vmul x k).sum - 1
  let tb1 := tb * (11 / 10)
  let k1 := wilsonK m.expO m.logO m.Pcs m.Tcs m.omegas P tb1
  let f1 := (vmul x k1).sum - 1
  let xk := vmul x k1
  let y := xk.map (fun c => c / xk.sum)
  ⟨tb, tb1, tb, f1, f2, y, k1, vfull m.n 0, vfull m.n 0⟩

/-- Result tuple assembled at Sindri/EOSMixture.py line 702. -/
def bubbleTResultOf (r : BubbleTSt × ℚ × ℕ) : EqResult :=
  (r.1.y, r.1.tb, r.1.phivap, r.1.philiq, r.1.k, r.2.2)

/-- getBubblePointTemperature_phi_phi (Sindri/EOSMixture.py lines 638-702). -/
def EOSMixtureM.getBubblePointTemperature_phi_phi (m : EOSMixtureM) (x : List ℚ)
    (P tol : ℚ) (kmax : ℕ) : Except PyError EqResult :=
  if x.length ≠ m.n then .error .assertError
  else if x.sum ≠ 1 then .error .assertError
  else
    match vleLoop (bubbleTBody m x P) tol kmax (bubbleTInit m x P) 100 with
    | .error e => .error e
    | .ok r => .ok (bubbleTResultOf r)

/-- Loop state of getDewPointTemperature_phi_phi (lines 803-828). -/
structure DewTSt where
  td : ℚ
  td1 : ℚ
  td2 : ℚ
  f1 : ℚ
  f2 : ℚ
  x : List ℚ
  k : List ℚ
  phivap : List ℚ
  philiq : List ℚ

/-- Loop body of getDewPointTemperature_phi_phi (lines 803-828); zvap = np.max
and zliq = np.min raise in that order on an empty root set. -/
def dewTBody (m : EOSMixtureM) (y : List ℚ) (P : ℚ) (s : DewTSt) :
    Except PyError (DewTSt × ℚ) :=
  let td := s.td1 - s.f1 * ((s.td1 - s.td2) / (s.f1 - s.f2))
  match npMax (m.getZfromPT P td y) with
  | .error e => .error e
  | .ok zvap =>
      match npMin (m.getZfromPT P td s.x) with
      | .error e => .error e
      | .ok zliq =>
          let phivap := (List.range m.n).map fun i => m.getPhi_i i y P td zvap
          let philiq := (List.range m.n).map fun i => m.getPhi_i i s.x P td zliq
          let k := vdiv philiq phivap
          let x := vdiv y k
          let xt := x.sum
          .ok (⟨td, td, s.td1, (vdiv y k).sum - 1, s.f1, x.map (fun c => c / xt), k,
            phivap, philiq⟩, |1 - xt|)

/-- Pre-loop state of getDewPointTemperature_phi_phi (lines 772-801). -/
def dewTInit (m : EOSMixtureM) (y : List ℚ) (P : ℚ) : DewTSt :=
  let Tdi := m.Tbs.map (fun tb => if 0 < tb then tb else 100)
  let td := (vmul y Tdi).sum
  let k := wilsonK m.expO m.logO m.Pcs m.Tcs m.omegas P td
  let f2 := (vdiv y k).sum - 1
  let td1 := td * (11 / 10)
  let k1 := wilsonK m.expO m.logO m.Pcs m.Tcs m.omegas P td1
  let f1 := (vdiv y k1).sum - 1
  let yk := vdiv y k1
  let x := yk.map (fun c => c / yk.sum)
  ⟨td, td1, td, f1, f2, x, k1, vfull m.n 0, vfull m.n 0⟩

/-- Result tuple assembled at Sindri/EOSMixture.py line 830. -/
def dewTResultOf (r : DewTSt × ℚ × ℕ) : EqResult :=
  (r.1.x, r.1.td, r.1.phivap, r.1.philiq, r.1.k, r.2.2)

/-- getDewPointTemperature_phi_phi (Sindri/EOSMixture.py lines 765-830). -/
def EOSMixtureM.getDewPointTemperature_phi_phi (m : EOSMixtureM) (y : List ℚ)
    (P tol : ℚ) (kmax : ℕ) : Except PyError EqResult :=
  if y.length ≠ m.n then .error .assertError
  else if y.sum ≠ 1 then .error .assertError
  else
    match vleLoop (dewTBody m y P) tol kmax (dewTInit m y P) 100 with
    | .error e => .error e
    | .ok r => .ok (dewTResultOf r)

/-- Loop state of getBubblePointTemperature_UNIFAC (lines 616-632). -/
structure BubbleTUSt where
  tb : ℚ
  tb1 : ℚ
  tb2 : ℚ
  f1 : ℚ
  f2 : ℚ
  y : List ℚ
  gamma : List ℚ
  k : List ℚ

/-- Loop body of getBubblePointTemperature_UNIFAC (lines 616-632); getCapPhi may
raise on an empty Z-root set. -/
def bubbleTUBody (m : EOSMixtureM) (x : List ℚ) (P : ℚ) (s : BubbleTUSt) :
    Except PyError (BubbleTUSt × ℚ) :=
  let tb := s.tb1 - s.f1 * ((s.tb1 - s.tb2) / (s.f1 - s.f2))
  match m.getCapPhi s.y P tb with
  | .error e => .error e
  | .ok capphi =>
      let psat := m.psatO tb
      let gamma := m.gammaO x tb
      let k := get_k_gamma_phi gamma psat P capphi
      let y := vmul x k
      let yt := y.sum
      .ok (⟨tb, tb, s.tb1, (vmul k x).sum - 1, s.f1, y.map (fun c => c / yt), gamma, k⟩,
        |1 - yt|)

/-- Pre-loop state of getBubblePointTemperature_UNIFAC (lines 592-611); the
pre-loop statement capphi = getCapPhi(y, P, tb1) may raise, before the loop is
entered. -/
def bubbleTUInit (m : EOSMixtureM) (x : List ℚ) (P : ℚ) : Except PyError BubbleTUSt :=
  let tsat := m.tsatO P
  let tb := (vmul x tsat).sum
  let capphi0 := vfull m.n 1
  let psat0 := m.psatO tb
  let gamma0 := m.gammaO x tb
  let k0 := get_k_gamma_phi gamma0 psat0 P capphi0
  let f2 := (vmul x k0).sum - 1
  let tb1 := tb * (11 / 10)
  let xk0 := vmul x k0
  let y0 := xk0.map (fun c => c / xk0.sum)
  match m.getCapPhi y0 P tb1 with
  | .error e => .error e
  | .ok capphi1 =>
      let psat1 := m.psatO tb1
      let gamma1 := m.gammaO x tb1
      let k1 := get_k_gamma_phi gamma1 psat1 P capphi1
      let f1 := (vmul x k1).sum - 1
      let xk1 := vmul x k1
      let y1 := xk1.map (fun c => c / xk1.sum)
      .ok ⟨tb, tb1, tb, f1, f2, y1, gamma1, k1⟩

/-- Result tuple assembled at Sindri/EOSMixture.py lines 634-635, given the
phivap array already computed by getPhiVap. All returned variables are assigned
before the loop in the source, so no unbound read occurs here. -/
def bubbleTUResultOf (m : EOSMixtureM) (P : ℚ) (phivap : List ℚ)
    (r : BubbleTUSt × ℚ × ℕ) : EqResult :=
  (r.1.y, r.1.tb, phivap, r.1.gamma, r.1.k, r.2.2)

/-- getBubblePointTemperature_UNIFAC (Sindri/EOSMixture.py lines 587-635). -/
def EOSMixtureM.getBubblePointTemperature_UNIFAC (m : EOSMixtureM) (x : List ℚ)
    (P tol : ℚ) (kmax : ℕ) : Except PyError EqResult :=
  if x.length ≠ m.n then .error .assertError
  else if x.sum ≠ 1 then .error .assertError
  else
    match bubbleTUInit m x P with
    | .error e => .error e
    | .ok s0 =>
        match vleLoop (bubbleTUBody m x P) tol kmax s0 100 with
        | .error e => .error e
        | .ok r =>
            match m.getPhiVap r.1.y P r.1.tb with
            | .error e => .error e
            | .ok phivap => .ok (bubbleTUResultOf m P phivap r)

/-- Loop state of getDewPointTemperature_UNIFAC (lines 743-760). -/
structure DewTUSt where
  td : ℚ
  td1 : ℚ
  td2 : ℚ
  f1 : ℚ
  f2 : ℚ
  x : List ℚ
  gamma : List ℚ
  k : List ℚ

/-- Loop body of getDewPointTemperature_UNIFAC (lines 743-760); getCapPhi may
raise on an empty Z-root set. -/
def dewTUBody (m : EOSMixtureM) (y : List ℚ) (P : ℚ) (s : DewTUSt) :
    Except PyError (DewTUSt × ℚ) :=
  let td := s.td1 - s.f1 * ((s.td1 - s.td2) / (s.f1 - s.f2))
  match m.getCapPhi y P td with
  | .error e => .error e
  | .ok capphi =>
      let psat := m.psatO td
      let gamma := m.gammaO s.x td
      let k := get_k_gamma_phi gamma psat P capphi
      let x := get_x_eq_12_10 y gamma psat capphi P
      let xt := x.sum
      .ok (⟨td, td, s.td1, (vdiv y k).sum - 1, s.f1, x.map (fun c => c / xt), gamma, k⟩,
        |1 - xt|)

/-- Pre-loop state of getDewPointTemperature_UNIFAC (lines 719-739); the two
pre-loop getCapPhi calls (lines 722 and 732) may raise, in source order, before
the loop is entered. -/
def dewTUInit (m : EOSMixtureM) (y : List ℚ) (P : ℚ) : Except PyError DewTUSt :=
  let td := (vmul y (m.tsatO P)).sum
  let gamma0 := vfull m.n 1
  match m.getCapPhi y P td with
  | .error e => .error e
  | .ok capphi0 =>
      let psat0 := m.psatO td
      let x0 := get_x_eq_12_10 y gamma0 psat0 capphi0 P
      let k0 := get_k_gamma_phi gamma0 psat0 P capphi0
      let x1 := x0.map (fun c => c / x0.sum)
      let f2 := (vdiv y k0).sum - 1
      let td1 := td * (11 / 10)
      match m.getCapPhi y P td1 with
      | .error e => .error e
      | .ok capphi1 =>
          let psat1 := m.psatO td1
          let gamma1 := m.gammaO x1 td1
          let k1 := get_k_gamma_phi gamma1 psat1 P capphi1
          let f1 := (vdiv y k1).sum - 1
          let x2 := get_x_eq_12_10 y gamma1 psat1 capphi1 P
          let x3 := x2.map (fun c => c / x2.sum)
          .ok ⟨td, td1, td, f1, f2, x3, gamma1, k1⟩

/-- Result tuple assembled at Sindri/EOSMixture.py lines 762-763, given the
phivap array already computed by getPhiVap. All returned variables are assigned
before the loop in the source, so no unbound read occurs here. -/
def dewTUResultOf (m : EOSMixtureM) (y : List ℚ) (P : ℚ) (phivap : List ℚ)
    (r : DewTUSt × ℚ × ℕ) : EqResult :=
  (r.1.x, r.1.td, phivap, r.1.gamma, r.1.k, r.2.2)

/-- getDewPointTemperature_UNIFAC (Sindri/EOSMixture.py lines 712-763). -/
def EOSMixtureM.getDewPointTemperature_UNIFAC (m : EOSMixtureM) (y : List ℚ)
    (P tol : ℚ) (kmax : ℕ) : Except PyError EqResult :=
  if y.length ≠ m.n then .error .assertError
  else if y.sum ≠ 1 then .error .assertError
  else
    match dewTUInit m y P with
    | .error e => .error e
    | .ok s0 =>
        match vleLoop (dewTUBody m y P) tol kmax s0 100 with
        | .error e => .error e
        | .ok r =>
            match m.getPhiVap y P r.1.td with
            | .error e => .error e
            | .ok phivap => .ok (dewTUResultOf m y P phivap r)

/-- getBubblePointPressure dispatch (Sindri/EOSMixture.py lines 395-401). -/
def EOSMixtureM.getBubblePointPressure (m : EOSMixtureM) (x : List ℚ) (T tol : ℚ)
    (kmax : ℕ) : Except PyError EqResult :=
  if m.vle_method = "phi-phi" then m.getBubblePointPressure_phi_phi x T tol kmax
  else if m.vle_method = "UNIFAC" then m.getBubblePointPressure_UNIFAC x T tol kmax
  else .error .notImplementedError

/-- getDewPointPressure dispatch (Sindri/EOSMixture.py lines 480-486). -/
def EOSMixtureM.getDewPointPressure (m : EOSMixtureM) (y : List ℚ) (T tol : ℚ)
    (kmax : ℕ) : Except PyError EqResult :=
  if m.vle_method = "phi-phi" then m.getDewPointPressure_phi_phi y T tol kmax
  else if m.vle_method = "UNIFAC" then m.getDewPointPressure_UNIFAC y T tol kmax
  else .error .notImplementedError

/-- Loop state of getFlash_phi_phi (lines 864-883). -/
structure FlashSt where
  v : ℚ
  x : List ℚ
  y : List ℚ
  phivap : List ℚ
  philiq : List ℚ
  k : List ℚ

/-- Loop body of getFlash_phi_phi (lines 864-883): zvap = np.max and zliq =
np.min (raising in that order on an empty root set), fugacity-coefficient
ratios, then the inner _RachfordRice call with tol = 1e-8 and kmax = 500;
nonTermination if that inner loop is still running when rrFuel is exhausted. -/
def flashBody (m : EOSMixtureM) (z : List ℚ) (P T : ℚ) (rrFuel : ℕ) (s : FlashSt) :
    Except PyError (FlashSt × ℚ) :=
  match npMax (m.getZfromPT P T s.y) with
  | .error e => .error e
  | .ok zvap =>
      match npMin (m.getZfromPT P T s.x) with
      | .error e => .error e
      | .ok zliq =>
          let phivap := (List.range m.n).map fun i => m.getPhi_i i s.y P T zvap
          let philiq := (List.range m.n).map fun i => m.getPhi_i i s.x P T zliq
          let k := vdiv philiq phivap
          match RachfordRice s.v k z (1 / 10 ^ 8) 500 rrFuel with
          | none => .error .nonTermination
          | some v =>
              let x := vdiv z (k.map (fun ki => 1 + v * (ki - 1)))
              let y := vmul k x
              .ok (⟨v, x, y, phivap, philiq, k⟩, |v - s.v|)

/-- Pre-loop flash state (lines 853-862): v = (pb - P) / (pb - pd), both phases
re-initialised to the equal split 1/n, np.empty arrays as zeros, and the k slot
holding what the Python variable k holds on loop entry (the k of the bubble
sub-solve). -/
def flashInit (m : EOSMixtureM) (v0 : ℚ) (k0 : List ℚ) : FlashSt :=
  ⟨v0, vfull m.n (1 / (m.n : ℚ)), vfull m.n (1 / (m.n : ℚ)), vfull m.n 0, vfull m.n 0, k0⟩

/-- Result tuple assembled at Sindri/EOSMixture.py line 884. -/
def flashResultOf (r : FlashSt × ℚ × ℕ) : FlashResult :=
  (r.1.x, r.1.y, r.1.v, r.1.phivap, r.1.philiq, r.1.k, r.2.2)

/-- The part of getFlash_phi_phi after the dew and bubble sub-solves (lines
850-884): the domain check if not (pd <= P <= pb): raise ValueError, the initial
vapor fraction v = (pb - P) / (pb - pd), the equal-split re-initialisation of both
phases, and the flash loop. The k slot of the loop state starts as the k returned
by the bubble sub-solve, which is what the Python variable k holds on loop entry. -/
def flashPhiPhiCore (m : EOSMixtureM) (z : List ℚ) (P T tol : ℚ) (kmax rrFuel : ℕ)
    (dres bres : EqResult) : Except PyError FlashResult :=
  let pd := dres.2.1
  let pb := bres.2.1
  if ¬(pd ≤ P ∧ P ≤ pb) then .error .valueError
  else
    match vleLoop (flashBody m z P T rrFuel) tol kmax
        (flashInit m ((pb - P) / (pb - pd)) bres.2.2.2.2.1) 100 with
    | .error e => .error e
    | .ok r => .ok (flashResultOf r)

/-- getFlash_phi_phi (Sindri/EOSMixture.py lines 840-884): the two asserts, the
dew and bubble sub-solves at the default tolerances tol = 1e3 * DBL_EPSILON and
kmax = 1000, then flashPhiPhiCore. An exception from a sub-solve propagates. -/
def EOSMixtureM.getFlash_phi_phi (m : EOSMixtureM) (z : List ℚ) (P T tol : ℚ)
    (kmax rrFuel : ℕ) : Except PyError FlashResult :=
  if m.n ≠ z.length then .error .assertError
  else if z.sum ≠ 1 then .error .assertError
  else
    match m.getDewPointPressure z T (1000 * DBL_EPSILON) 1000,
        m.getBubblePointPressure z T (1000 * DBL_EPSILON) 1000 with
    | .ok dres, .ok bres => flashPhiPhiCore m z P T tol kmax rrFuel dres bres
    | .error e, _ => .error e
    | _, .error e => .error e

/-- Loop state of getFlash_UNIFAC (lines 908-919); phivap and gamma are assigned
only inside the loop body in the source, so they are carried as Option values:
none is the still-unbound Python local, and reading either after a run of zero
iterations raises UnboundLocalError (at the return on line 921). -/
structure FlashUSt where
  v : ℚ
  x : List ℚ
  y : List ℚ
  phivap : Option (List ℚ)
  gamma : Option (List ℚ)
  k : List ℚ

/-- Loop body of getFlash_UNIFAC (lines 908-919): getPhiVap and getCapPhi may
raise on an empty Z-root set, and the inner _RachfordRice call (tol = 1e-8,
kmax = 500) yields nonTermination when its fuel runs out. The body assigns
phivap and gamma, so after any iteration the state holds some values. -/
def flashUBody (m : EOSMixtureM) (z psat : List ℚ) (P T : ℚ) (rrFuel : ℕ)
    (s : FlashUSt) : Except PyError (FlashUSt × ℚ) :=
  match m.getPhiVap s.y P T with
  | .error e => .error e
  | .ok phivap =>
      let gamma := m.gammaO s.x T
      match m.getCapPhi s.y P T with
      | .error e => .error e
      | .ok capphi =>
          let k := get_k_gamma_phi gamma psat P capphi
          match RachfordRice s.v k z (1 / 10 ^ 8) 500 rrFuel with
          | none => .error .nonTermination
          | some v =>
              let x := vdiv z (k.map (fun ki => 1 + v * (ki - 1)))
              let y := vmul k x
              .ok (⟨v, x, y, some phivap, some gamma, k⟩, |v - s.v|)

/-- Pre-loop flash state of getFlash_UNIFAC (lines 899-906): v = (pb - P) /
(pb - pd), both phases reset to the equal split 1/n, phivap and gamma still
unbound (none), the k slot holding the k of the bubble sub-solve. -/
def flashUInit (m : EOSMixtureM) (v0 : ℚ) (k0 : List ℚ) : FlashUSt :=
  ⟨v0, vfull m.n (1 / (m.n : ℚ)), vfull m.n (1 / (m.n : ℚ)), none, none, k0⟩

/-- Result tuple assembled at Sindri/EOSMixture.py line 921, given the bound
phivap and gamma arrays. -/
def flashUResultOf (pv gv : List ℚ) (r : FlashUSt × ℚ × ℕ) : FlashResult :=
  (r.1.x, r.1.y, r.1.v, pv, gv, r.1.k, r.2.2)

/-- The part of getFlash_UNIFAC after the dew and bubble sub-solves (lines
896-921). The return at line 921 reads phivap and gamma, which are only assigned
inside the loop body: if the loop ran zero iterations the read raises
UnboundLocalError (phivap, the first loop-only variable in the returned tuple,
is read first). -/
def flashUNIFACCore (m : EOSMixtureM) (z : List ℚ) (P T tol : ℚ) (kmax rrFuel : ℕ)
    (dres bres : EqResult) : Except PyError FlashResult :=
  let pd := dres.2.1
  let pb := bres.2.1
  if ¬(pd ≤ P ∧ P ≤ pb) then .error .valueError
  else
    match vleLoop (flashUBody m z (m.psatO T) P T rrFuel) tol kmax
        (flashUInit m ((pb - P) / (pb - pd)) bres.2.2.2.2.1) 100 with
    | .error e => .error e
    | .ok r =>
        match r.1.phivap with
        | none => .error .unboundLocalError
        | some pv =>
            match r.1.gamma with
            | none => .error .unboundLocalError
            | some gv => .ok (flashUResultOf pv gv r)

/-- getFlash_UNIFAC (Sindri/EOSMixture.py lines 886-921). -/
def EOSMixtureM.getFlash_UNIFAC (m : EOSMixtureM) (z : List ℚ) (P T tol : ℚ)
    (kmax rrFuel : ℕ) : Except PyError FlashResult :=
  if m.n ≠ z.length then .error .assertError
  else if z.sum ≠ 1 then .error .assertError
  else
    match m.getDewPointPressure z T (1000 * DBL_EPSILON) 1000,
        m.getBubblePointPressure z T (1000 * DBL_EPSILON) 1000 with
    | .ok dres, .ok bres => flashUNIFACCore m z P T tol kmax rrFuel dres bres
    | .error e, _ => .error e
    | _, .error e => .error e

/-- getFlash dispatch (Sindri/EOSMixture.py lines 832-838). -/
def EOSMixtureM.getFlash (m : EOSMixtureM) (z : List ℚ) (P T tol : ℚ)
    (kmax rrFuel : ℕ) : Except PyError FlashResult :=
  if m.vle_method = "phi-phi" then m.getFlash_phi_phi z P T tol kmax rrFuel
  else if m.vle_method = "UNIFAC" then m.getFlash_UNIFAC z P T tol kmax rrFuel
  else .error .notImplementedError

/-- Stateful view of a method call: the returned value paired with the object
state after the call. A Python method mutates the object only through attribute
assignment; getDewPointPressure contains none, so its stateful embedding returns
the object unchanged. -/
def EOSMixtureM.getDewPointPressureS (m : EOSMixtureM) (y : List ℚ) (T tol : ℚ)
    (kmax : ℕ) : Except PyError EqResult × EOSMixtureM :=
  (m.getDewPointPressure y T tol kmax, m)

/-- Stateful view of getBubblePointPressure; no attribute assignment in its body. -/
def EOSMixtureM.getBubblePointPressureS (m : EOSMixtureM) (x : List ℚ) (T tol : ℚ)
    (kmax : ℕ) : Except PyError EqResult × EOSMixtureM :=
  (m.getBubblePointPressure x T tol kmax, m)

/-- Stateful view of getFlash_phi_phi (lines 840-884): the dew and bubble
sub-calls are threaded through the object state; the flash body itself contains
no attribute assignment, so the final state is whatever the sub-calls left. -/
def EOSMixtureM.getFlash_phi_phiS (m : EOSMixtureM) (z : List ℚ) (P T tol : ℚ)
    (kmax rrFuel : ℕ) : Except PyError FlashResult × EOSMixtureM :=
  if m.n ≠ z.length then (.error .assertError, m)
  else if z.sum ≠ 1 then (.error .assertError, m)
  else
    let d := m.getDewPointPressureS z T (1000 * DBL_EPSILON) 1000
    let b := d.2.getBubblePointPressureS z T (1000 * DBL_EPSILON) 1000
    match d.1, b.1 with
    | .ok dres, .ok bres => (flashPhiPhiCore b.2 z P T tol kmax rrFuel dres bres, b.2)
    | .error e, _ => (.error e, b.2)
    | _, .error e => (.error e, b.2)

/-- Stateful view of getFlash_UNIFAC. -/
def EOSMixtureM.getFlash_UNIFACS (m : EOSMixtureM) (z : List ℚ) (P T tol : ℚ)
    (kmax rrFuel : ℕ) : Except PyError FlashResult × EOSMixtureM :=
  if m.n ≠ z.length then (.error .assertError, m)
  else if z.sum ≠ 1 then (.error .assertError, m)
  else
    let d := m.getDewPointPressureS z T (1000 * DBL_EPSILON) 1000
    let b := d.2.getBubblePointPressureS z T (1000 * DBL_EPSILON) 1000
    match d.1, b.1 with
    | .ok dres, .ok bres => (flashUNIFACCore b.2 z P T tol kmax rrFuel dres bres, b.2)
    | .error e, _ => (.error e, b.2)
    | _, .error e => (.error e, b.2)

/-- Stateful view of the getFlash dispatch (lines 832-838). -/
def EOSMixtureM.getFlashS (m : EOSMixtureM) (z : List ℚ) (P T tol : ℚ)
    (kmax rrFuel : ℕ) : Except PyError FlashResult × EOSMixtureM :=
  if m.vle_method = "phi-phi" then m.getFlash_phi_phiS z P T tol kmax rrFuel
  else if m.vle_method = "UNIFAC" then m.getFlash_UNIFACS z P T tol kmax rrFuel
  else (.error .notImplementedError, m)

/-- A concrete mixture model used for witnesses and counterexamples: two
substances, Pcs = [2, 4], Tcs = [1, 1], omegas = [0, 0]. At T = 1 every Wilson
exponent 5.373 * (1 + omega) * (1 - Tc / T) is 0, so the constant oracle
expO = 1 and logO = 0 agree with the real np.exp and np.log at every point where
the trace evaluates them; the mixture-parameter oracles all return 0, so every
fugacity evaluation takes the limiting branch and returns expO(...) = 1, and the
cubic-root oracle returns the single root 1. -/
def cMix : EOSMixtureM :=
  { n := 2
    Pcs := [2, 4]
    Tcs := [1, 1]
    omegas := [0, 0]
    Tbs := [1, 1]
    subs_ids := [101, 102]
    vle_method := "phi-phi"
    has_UNIFAC := false
    expO := fun _ => 1
    logO := fun _ => 0
    sqrtO := fun _ => 0
    pow15O := fun _ => 0
    bmO := fun _ _ => 0
    thetamO := fun _ _ => 0
    deltamO := fun _ _ => 0
    epsilonmO := fun _ _ => 0
    diffThetamO := fun _ _ _ => 0
    diffBmO := fun _ _ _ => 0
    diffDeltamO := fun _ _ _ => 0
    diffEpsilonmO := fun _ _ _ => 0
    solve_cubicO := fun _ _ _ _ => [1]
    gammaO := fun _ _ => [1, 1]
    psatO := fun _ => [1, 1]
    tsatO := fun _ => [1, 1] }

/-- The solver loop never exceeds its cap: whenever it completes (every body
evaluation succeeded), the final iteration count is at most ite + rem, and it
equals ite + rem whenever the final error is still above tol (the loop only
stops early by reaching the tolerance). -/
theorem vleLoopAux_spec {σ : Type} (body : σ → Except PyError (σ × ℚ)) (tol : ℚ)
    (rem : ℕ) :
    ∀ (s : σ) (err : ℚ) (ite : ℕ) (r : σ × ℚ × ℕ),
      vleLoopAux body tol rem s err ite = .ok r →
      r.2.2 ≤ ite + rem ∧ (tol < r.2.1 → r.2.2 = ite + rem) := by
  induction rem with
  | zero =>
      intro s err ite r hr
      unfold vleLoopAux at hr
      injection hr with h
      subst h
      exact ⟨Nat.le_add_right ite 0, fun _ => (Nat.add_zero ite).symm⟩
  | succ rem ih =>
      intro s err ite r hr
      rw [vleLoopAux] at hr
      split at hr
      · cases hbody : body s with
        | error e => rw [hbody] at hr; exact absurd hr (by simp)
        | ok p =>
            rw [hbody] at hr
            rcases ih p.1 p.2 (ite + 1) r hr with ⟨h1, h2⟩
            exact ⟨h1.trans (by omega), fun ht => (h2 ht).trans (by omega)⟩
      · rename_i hguard
        injection hr with h
        subst h
        exact ⟨Nat.le_add_right ite (rem + 1), fun ht => absurd ht hguard⟩

/-- An exception leaving the solver loop is an exception raised by some body
evaluation. -/
theorem vleLoopAux_error {σ : Type} (body : σ → Except PyError (σ × ℚ)) (tol : ℚ)
    (rem : ℕ) :
    ∀ (s : σ) (err : ℚ) (ite : ℕ) (e : PyError),
      vleLoopAux body tol rem s err ite = .error e →
      ∃ s2, body s2 = .error e := by
  induction rem with
  | zero =>
      intro s err ite e hr
      unfold vleLoopAux at hr
      exact absurd hr (by simp)
  | succ rem ih =>
      intro s err ite e hr
      rw [vleLoopAux] at hr
      split at hr
      · cases hbody : body s with
        | error e2 =>
            rw [hbody] at hr
            injection hr with h
            subst h
            exact ⟨s, hbody⟩
        | ok p =>
            rw [hbody] at hr
            exact ih p.1 p.2 (ite + 1) e hr
      · exact absurd hr (by simp)

/-- Exception propagation for the loop started at count 0. -/
theorem vleLoop_error {σ : Type} (body : σ → Except PyError (σ × ℚ)) (tol : ℚ)
    (kmax : ℕ) (s : σ) (err0 : ℚ) (e : PyError)
    (h : vleLoop body tol kmax s err0 = .error e) : ∃ s2, body s2 = .error e :=
  vleLoopAux_error body tol kmax s err0 0 e h

/-- The exceptions a solver loop body can raise: the zero-size-array ValueError
of np.max and np.min, or (for the flash bodies) exhaustion of the inner
Rachford-Rice fuel. -/
def bodyErr (e : PyError) : Prop :=
  e = .zeroSizeArrayError ∨ e = .nonTermination

theorem npMax_error (l : List ℚ) (e : PyError) (h : npMax l = .error e) :
    e = .zeroSizeArrayError := by
  cases l with
  | nil =>
      simp only [npMax] at h
      injection h with h
      exact h.symm
  | cons a t =>
      simp only [npMax] at h
      exact Except.noConfusion h

theorem npMin_error (l : List ℚ) (e : PyError) (h : npMin l = .error e) :
    e = .zeroSizeArrayError := by
  cases l with
  | nil =>
      simp only [npMin] at h
      injection h with h
      exact h.symm
  | cons a t =>
      simp only [npMin] at h
      exact Except.noConfusion h

theorem pyTraverse_error (f : ℕ → Except PyError ℚ) :
    ∀ (l : List ℕ) (e : PyError), pyTraverse f l = .error e → ∃ i, f i = .error e := by
  intro l
  induction l with
  | nil =>
      intro e h
      simp only [pyTraverse] at h
      exact Except.noConfusion h
  | cons i t ih =>
      intro e h
      simp only [pyTraverse] at h
      split at h
      · rename_i e2 hf
        injection h with h
        subst h
        exact ⟨i, hf⟩
      · split at h
        · rename_i e2 hrest
          injection h with h
          subst h
          exact ih e2 hrest
        · exact absurd h (by simp)

theorem getCapPhi_i_error (m : EOSMixtureM) (i : ℕ) (y : List ℚ) (P T : ℚ)
    (e : PyError) (h : m.getCapPhi_i i y P T = .error e) : e = .zeroSizeArrayError := by
  unfold EOSMixtureM.getCapPhi_i at h
  split at h
  · rename_i e2 hm
    injection h with h
    subst h
    exact npMax_error _ _ hm
  · exact absurd h (by simp)

theorem getCapPhi_error (m : EOSMixtureM) (y : List ℚ) (P T : ℚ) (e : PyError)
    (h : m.getCapPhi y P T = .error e) : e = .zeroSizeArrayError := by
  unfold EOSMixtureM.getCapPhi at h
  obtain ⟨i, hi⟩ := pyTraverse_error _ _ _ h
  exact getCapPhi_i_error m i y P T e hi

theorem getPhiVap_error (m : EOSMixtureM) (y : List ℚ) (P T : ℚ) (e : PyError)
    (h : m.getPhiVap y P T = .error e) : e = .zeroSizeArrayError := by
  unfold EOSMixtureM.getPhiVap at h
  split at h
  · rename_i e2 hm
    injection h with h
    subst h
    exact npMax_error _ _ hm
  · exact absurd h (by simp)

theorem bubblePBody_error (m : EOSMixtureM) (x : List ℚ) (T : ℚ) (s : BubblePSt)
    (e : PyError) (h : bubblePBody m x T s = .error e) : bodyErr e := by
  unfold bubblePBody at h
  dsimp only at h
  split at h
  · rename_i e2 hm
    injection h with h
    subst h
    exact Or.inl (npMax_error _ _ hm)
  · split at h
    · rename_i e2 hm
      injection h with h
      subst h
      exact Or.inl (npMin_error _ _ hm)
    · exact absurd h (by simp)

theorem dewPBody_error (m : EOSMixtureM) (y : List ℚ) (T : ℚ) (s : DewPSt)
    (e : PyError) (h : dewPBody m y T s = .error e) : bodyErr e := by
  unfold dewPBody at h
  dsimp only at h
  split at h
  · rename_i e2 hm
    injection h with h
    subst h
    exact Or.inl (npMax_error _ _ hm)
  · split at h
    · rename_i e2 hm
      injection h with h
      subst h
      exact Or.inl (npMin_error _ _ hm)
    · exact absurd h (by simp)

theorem bubblePUBody_error (m : EOSMixtureM) (x gamma PSat : List ℚ) (T : ℚ)
    (s : BubblePUSt) (e : PyError) (h : bubblePUBody m x gamma PSat T s = .error e) :
    bodyErr e := by
  unfold bubblePUBody at h
  dsimp only at h
  split at h
  · rename_i e2 hm
    injection h with h
    subst h
    exact Or.inl (getCapPhi_error _ _ _ _ _ hm)
  · exact absurd h (by simp)

theorem dewPUInnerBody_error (m : EOSMixtureM) (y Psat capphi : List ℚ)
    (T pd : ℚ) (s : List ℚ × List ℚ) (e : PyError)
    (h : dewPUInnerBody m y Psat capphi T pd s = .error e) : bodyErr e := by
  unfold dewPUInnerBody at h
  dsimp only at h
  split at h
  · rename_i e2 hm
    injection h with h
    subst h
    exact Or.inl (npMax_error _ _ hm)
  · exact absurd h (by simp)

theorem dewPUBody_error (m : EOSMixtureM) (y Psat : List ℚ) (T : ℚ) (kmax : ℕ)
    (tol : ℚ) (s : DewPUSt) (e : PyError)
    (h : dewPUBody m y Psat T kmax tol s = .error e) : bodyErr e := by
  unfold dewPUBody at h
  dsimp only at h
  split at h
  · rename_i e2 hm
    injection h with h
    subst h
    exact Or.inl (getCapPhi_error _ _ _ _ _ hm)
  · split at h
    · rename_i e2 hloop
      injection h with h
      subst h
      obtain ⟨s2, hs2⟩ := vleLoop_error _ _ _ _ _ _ hloop
      exact dewPUInnerBody_error _ _ _ _ _ _ _ _ hs2
    · exact absurd h (by simp)

theorem bubbleTBody_error (m : EOSMixtureM) (x : List ℚ) (P : ℚ) (s : BubbleTSt)
    (e : PyError) (h : bubbleTBody m x P s = .error e) : bodyErr e := by
  unfold bubbleTBody at h
  dsimp only at h
  split at h
  · rename_i e2 hm
    injection h with h
    subst h
    exact Or.inl (npMax_error _ _ hm)
  · split at h
    · rename_i e2 hm
      injection h with h
      subst h
      exact Or.inl (npMin_error _ _ hm)
    · exact absurd h (by simp)

theorem dewTBody_error (m : EOSMixtureM) (y : List ℚ) (P : ℚ) (s : DewTSt)
    (e : PyError) (h : dewTBody m y P s = .error e) : bodyErr e := by
  unfold dewTBody at h
  dsimp only at h
  split at h
  · rename_i e2 hm
    injection h with h
    subst h
    exact Or.inl (npMax_error _ _ hm)
  · split at h
    · rename_i e2 hm
      injection h with h
      subst h
      exact Or.inl (npMin_error _ _ hm)
    · exact absurd h (by simp)

theorem bubbleTUBody_error (m : EOSMixtureM) (x : List ℚ) (P : ℚ) (s : BubbleTUSt)
    (e : PyError) (h : bubbleTUBody m x P s = .error e) : bodyErr e := by
  unfold bubbleTUBody at h
  dsimp only at h
  split at h
  · rename_i e2 hm
    injection h with h
    subst h
    exact Or.inl (getCapPhi_error _ _ _ _ _ hm)
  · exact absurd h (by simp)

theorem dewTUBody_error (m : EOSMixtureM) (y : List ℚ) (P : ℚ) (s : DewTUSt)
    (e : PyError) (h : dewTUBody m y P s = .error e) : bodyErr e := by
  unfold dewTUBody at h
  dsimp only at h
  split at h
  · rename_i e2 hm
    injection h with h
    subst h
    exact Or.inl (getCapPhi_error _ _ _ _ _ hm)
  · exact absurd h (by simp)

theorem flashBody_error (m : EOSMixtureM) (z : List ℚ) (P T : ℚ) (rrFuel : ℕ)
    (s : FlashSt) (e : PyError) (h : flashBody m z P T rrFuel s = .error e) :
    bodyErr e := by
  unfold flashBody at h
  dsimp only at h
  split at h
  · rename_i e2 hm
    injection h with h
    subst h
    exact Or.inl (npMax_error _ _ hm)
  · split at h
    · rename_i e2 hm
      injection h with h
      subst h
      exact Or.inl (npMin_error _ _ hm)
    · split at h
      · injection h with h
        subst h
        exact Or.inr rfl
      · exact absurd h (by simp)

theorem flashUBody_error (m : EOSMixtureM) (z psat : List ℚ) (P T : ℚ)
    (rrFuel : ℕ) (s : FlashUSt) (e : PyError)
    (h : flashUBody m z psat P T rrFuel s = .error e) : bodyErr e := by
  unfold flashUBody at h
  dsimp only at h
  split at h
  · rename_i e2 hm
    injection h with h
    subst h
    exact Or.inl (getPhiVap_error _ _ _ _ _ hm)
  · split at h
    · rename_i e2 hm
      injection h with h
      subst h
      exact Or.inl (getCapPhi_error _ _ _ _ _ hm)
    · split at h
      · injection h with h
        subst h
        exact Or.inr rfl
      · exact absurd h (by simp)

theorem dewPUInit_error (m : EOSMixtureM) (y : List ℚ) (T : ℚ) (e : PyError)
    (h : dewPUInit m y T = .error e) : e = .zeroSizeArrayError := by
  unfold dewPUInit at h
  dsimp only at h
  split at h
  · rename_i e2 hm
    injection h with h
    subst h
    exact getCapPhi_error _ _ _ _ _ hm
  · exact absurd h (by simp)

theorem bubbleTUInit_error (m : EOSMixtureM) (x : List ℚ) (P : ℚ) (e : PyError)
    (h : bubbleTUInit m x P = .error e) : e = .zeroSizeArrayError := by
  unfold bubbleTUInit at h
  dsimp only at h
  split at h
  · rename_i e2 hm
    injection h with h
    subst h
    exact getCapPhi_error _ _ _ _ _ hm
  · exact absurd h (by simp)

theorem dewTUInit_error (m : EOSMixtureM) (y : List ℚ) (P : ℚ) (e : PyError)
    (h : dewTUInit m y P = .error e) : e = .zeroSizeArrayError := by
  unfold dewTUInit at h
  dsimp only at h
  split at h
  · rename_i e2 hm
    injection h with h
    subst h
    exact getCapPhi_error _ _ _ _ _ hm
  · split at h
    · rename_i e2 hm
      injection h with h
      subst h
      exact getCapPhi_error _ _ _ _ _ hm
    · exact absurd h (by simp)

/-- Once the iteration counter of the _RachfordRice loop has passed kmax, the OR
in the guard while err > tol or iter > kmax stays true, so the loop never exits,
whatever the fuel. -/
theorem rachfordRiceGo_none_of_cap (k z : List ℚ) (tol : ℚ) (kmax : ℤ) :
    ∀ (fuel : ℕ) (err v0 v1 : ℚ) (iter : ℤ), kmax < iter →
      rachfordRiceGo k z tol kmax fuel err v0 v1 iter = none := by
  intro fuel
  induction fuel with
  | zero =>
      intro err v0 v1 iter h
      unfold rachfordRiceGo
      rw [if_pos (Or.inr h)]
  | succ fuel ih =>
      intro err v0 v1 iter h
      unfold rachfordRiceGo
      rw [if_pos (Or.inr h)]
      exact ih _ _ _ _ (by omega)

/-- C2 (code_bug): the claim describes the intended cap semantics (terminate as
soon as the step is below tol or the iteration count exceeds kmax, whichever
first), but the source guard while err > tol or iter > kmax uses OR where the
intent requires AND: with kmax = 0 and v0 = 0, k = [2, 1/2], z = [1/2, 1/2],
tol = 1e-8, the first iteration leaves err = 2/5 > tol with iter = 1 > kmax, and
from then on the guard stays true, so _RachfordRice never returns no matter how
long it runs (none for every fuel), instead of terminating once the count exceeds
the cap. -/
theorem rachfordRice_cap_exceeded_never_returns :
    ∀ fuel : ℕ, RachfordRice 0 [2, 1/2] [1/2, 1/2] (1 / 10 ^ 8) 0 fuel = none := by
  intro fuel
  cases fuel with
  | zero =>
      unfold RachfordRice rachfordRiceGo
      rw [if_pos (Or.inl (by norm_num))]
  | succ fuel =>
      unfold RachfordRice rachfordRiceGo
      rw [if_pos (Or.inl (by norm_num))]
      exact rachfordRiceGo_none_of_cap _ _ _ _ fuel _ _ _ 1 (by norm_num)

/-- C8 amended: the two _RachfordRice implementations compute the same residual f,
and their Newton denominators agree at v0 = 0, but the TPCAE dfdv squares only
(k - 1) inside the denominator, so away from v0 = 0 the Newton updates differ. -/
theorem rachfordRice_equivalence_amended (k z : List ℚ) :
    (∀ v : ℚ, rrfT k z v = rrf k z v) ∧ rrdfdvT k z 0 = rrdfdv k z 0 := by
  constructor
  · intro v; rfl
  · unfold rrdfdv rrdfdvT
    congr 1
    induction z generalizing k with
    | nil => rfl
    | cons zh zt ih =>
        cases k with
        | nil => rfl
        | cons kh kt =>
            simp only [List.zipWith_cons_cons, List.sum_cons, ih kt]
            norm_num

/-- Evaluation form of the absolute value, so that simp and norm_num can run the
loop guards on concrete rationals. -/
theorem abs_eval (q : ℚ) : |q| = if 0 ≤ q then q else -q := by
  split
  · exact abs_of_nonneg (by assumption)
  · exact abs_of_neg (by linarith [not_le.mp (by assumption)])

/-- C8 counterexample: at v0 = 1/2, k = [3, 1/2], z = [1/2, 1/2], tol = 1 and
kmax = 10 both loops stop after one Newton step, but the Sindri implementation
returns 19/26 while the TPCAE implementation returns 5/7. -/
theorem rachfordRice_equivalence_counterexample :
    RachfordRice (1/2) [3, 1/2] [1/2, 1/2] 1 10 5 = some (19/26) ∧
    RachfordRiceT (1/2) [3, 1/2] [1/2, 1/2] 1 10 5 = some (5/7) ∧
    (19/26 : ℚ) ≠ 5/7 := by
  refine ⟨?_, ?_, by norm_num⟩
  · norm_num [RachfordRice, rachfordRiceGo, rrNewton, rrf, rrdfdv, abs_eval]
  · norm_num [RachfordRiceT, rachfordRiceGoT, rrNewtonT, rrfT, rrdfdvT, abs_eval]


theorem rrf_closed (v : ℚ) (hA : (1 : ℚ) + v ≠ 0) (hB : (1 : ℚ) - v / 2 ≠ 0) :
    rrf [2, 1/2] [1/2, 1/2] v = (1 - 2 * v) / (4 * ((1 + v) * (1 - v / 2))) := by
  simp only [rrf, List.zipWith_cons_cons, List.zipWith_nil_right, List.sum_cons,
    List.sum_nil, add_zero]
  have e1 : (1 : ℚ) + v * (2 - 1) = 1 + v := by ring
  have e2 : (1 : ℚ) + v * (1 / 2 - 1) = 1 - v / 2 := by ring
  rw [e1, e2, div_add_div _ _ hA hB,
    div_eq_div_iff (mul_ne_zero hA hB) (mul_ne_zero (by norm_num) (mul_ne_zero hA hB))]
  ring

theorem rrdfdv_closed (v : ℚ) (hA : (1 : ℚ) + v ≠ 0) (hB : (1 : ℚ) - v / 2 ≠ 0) :
    rrdfdv [2, 1/2] [1/2, 1/2] v =
      -((5 - 2 * v + 2 * v ^ 2) / (8 * ((1 + v) ^ 2 * (1 - v / 2) ^ 2))) := by
  simp only [rrdfdv, List.zipWith_cons_cons, List.zipWith_nil_right, List.sum_cons,
    List.sum_nil, add_zero]
  have e1 : (1 : ℚ) + v * (2 - 1) = 1 + v := by ring
  have e2 : (1 : ℚ) + v * (1 / 2 - 1) = 1 - v / 2 := by ring
  have hA2 : ((1 : ℚ) + v) ^ 2 ≠ 0 := pow_ne_zero 2 hA
  have hB2 : ((1 : ℚ) - v / 2) ^ 2 ≠ 0 := pow_ne_zero 2 hB
  rw [e1, e2, neg_inj, div_add_div _ _ hA2 hB2,
    div_eq_div_iff (mul_ne_zero hA2 hB2) (mul_ne_zero (by norm_num) (mul_ne_zero hA2 hB2))]
  ring

theorem rrNewton_closed (v : ℚ) (h0 : 0 ≤ v) (h1 : v ≤ 1) :
    rrNewton [2, 1/2] [1/2, 1/2] v =
      (2 + 2 * v - 5 * v ^ 2 + 4 * v ^ 3) / (5 - 2 * v + 2 * v ^ 2) := by
  have hA : (1 : ℚ) + v ≠ 0 := by intro h; nlinarith
  have hB : (1 : ℚ) - v / 2 ≠ 0 := by intro h; nlinarith
  have hD : (5 : ℚ) - 2 * v + 2 * v ^ 2 ≠ 0 := by nlinarith [sq_nonneg (2 * v - 1)]
  rw [rrNewton, rrf_closed v hA hB, rrdfdv_closed v hA hB, div_neg, sub_neg_eq_add,
    div_div_div_eq]
  have hApos : (0 : ℚ) < 1 + v := by linarith
  have hBpos : (0 : ℚ) < 1 - v / 2 := by linarith
  have hden : (0 : ℚ) < 4 * ((1 + v) * (1 - v / 2)) * (5 - 2 * v + 2 * v ^ 2) := by
    have : (0 : ℚ) < 5 - 2 * v + 2 * v ^ 2 := by nlinarith [sq_nonneg (2 * v - 1)]
    positivity
  rw [add_div' _ _ _ hden.ne', div_eq_div_iff hden.ne' hD]
  ring

theorem rrNewton_mem (v : ℚ) (h0 : 0 ≤ v) (h1 : v ≤ 1) :
    0 ≤ rrNewton [2, 1/2] [1/2, 1/2] v ∧ rrNewton [2, 1/2] [1/2, 1/2] v ≤ 1 := by
  have hD : (0 : ℚ) < 5 - 2 * v + 2 * v ^ 2 := by nlinarith [sq_nonneg (2 * v - 1)]
  rw [rrNewton_closed v h0 h1]
  constructor
  · apply div_nonneg _ hD.le
    nlinarith [mul_nonneg h0 (sq_nonneg (2 * v - 1)), sq_nonneg (2 * v - 1)]
  · rw [div_le_one hD]
    nlinarith [sq_nonneg (8 * v - 3), mul_nonneg (by linarith : (0:ℚ) ≤ 1 - v) (by nlinarith [sq_nonneg (8 * v - 3)] : (0:ℚ) ≤ 4 * v ^ 2 - 3 * v + 1)]

theorem rrf_lipschitz (a b : ℚ) (ha0 : 0 ≤ a) (ha1 : a ≤ 1) (hb0 : 0 ≤ b) (hb1 : b ≤ 1) :
    |rrf [2, 1/2] [1/2, 1/2] a - rrf [2, 1/2] [1/2, 1/2] b| ≤ |a - b| := by
  have hAa : (0 : ℚ) < 1 + a := by linarith
  have hBa : (0 : ℚ) < 1 - a / 2 := by linarith
  have hAb : (0 : ℚ) < 1 + b := by linarith
  have hBb : (0 : ℚ) < 1 - b / 2 := by linarith
  set C : ℚ := 1 / (2 * ((1 + a) * (1 + b))) + 1 / (8 * ((1 - a / 2) * (1 - b / 2))) with hC
  have key : rrf [2, 1/2] [1/2, 1/2] a - rrf [2, 1/2] [1/2, 1/2] b = (b - a) * C := by
    rw [rrf_closed a hAa.ne' hBa.ne', rrf_closed b hAb.ne' hBb.ne', hC,
      div_sub_div _ _ (by positivity) (by positivity),
      div_add_div _ _ (by positivity) (by positivity), ← mul_div_assoc,
      div_eq_div_iff (by positivity) (by positivity)]
    ring
  have hC0 : 0 ≤ C := by positivity
  have hC1 : C ≤ 1 := by
    have t1 : 1 / (2 * ((1 + a) * (1 + b))) ≤ 1 / 2 := by
      rw [div_le_div_iff₀ (by positivity) (by norm_num)]
      nlinarith [mul_nonneg ha0 hb0]
    have t2 : 1 / (8 * ((1 - a / 2) * (1 - b / 2))) ≤ 1 / 2 := by
      rw [div_le_div_iff₀ (by positivity) (by norm_num)]
      nlinarith [mul_nonneg (sub_nonneg.2 ha1) (sub_nonneg.2 hb1)]
    rw [hC]
    linarith
  calc |rrf [2, 1/2] [1/2, 1/2] a - rrf [2, 1/2] [1/2, 1/2] b| = |b - a| * |C| := by
        rw [key, abs_mul]
    _ ≤ |b - a| * 1 := by
        have := abs_of_nonneg hC0
        rw [this]
        exact mul_le_mul_of_nonneg_left hC1 (abs_nonneg _)
    _ = |a - b| := by rw [mul_one, abs_sub_comm]

theorem rrdfdv_abs_le (p : ℚ) (h0 : 0 ≤ p) (h1 : p ≤ 1) :
    |rrdfdv [2, 1/2] [1/2, 1/2] p| ≤ 1 := by
  have hA : (0 : ℚ) < 1 + p := by linarith
  have hB : (0 : ℚ) < 1 - p / 2 := by linarith
  have hNum : (0 : ℚ) ≤ 5 - 2 * p + 2 * p ^ 2 := by nlinarith [sq_nonneg (2 * p - 1)]
  rw [rrdfdv_closed p hA.ne' hB.ne', abs_neg,
    abs_of_nonneg (div_nonneg hNum (by positivity))]
  rw [div_le_one (by positivity)]
  nlinarith [mul_nonneg h0 (by linarith : (0:ℚ) ≤ 1 - p), sq_nonneg ((1 + p) * (1 - p / 2)), sq_nonneg (p * (1 - p))]

theorem rrdfdv_neg (p : ℚ) (h0 : 0 ≤ p) (h1 : p ≤ 1) :
    rrdfdv [2, 1/2] [1/2, 1/2] p < 0 := by
  have hA : (0 : ℚ) < 1 + p := by linarith
  have hB : (0 : ℚ) < 1 - p / 2 := by linarith
  rw [rrdfdv_closed p hA.ne' hB.ne', neg_lt_zero]
  have : (0 : ℚ) < 5 - 2 * p + 2 * p ^ 2 := by nlinarith [sq_nonneg (2 * p - 1)]
  positivity

theorem rr_exit_residual (p w : ℚ) (hp0 : 0 ≤ p) (hp1 : p ≤ 1)
    (hw : w = rrNewton [2, 1/2] [1/2, 1/2] p) (hclose : |p - w| ≤ 1 / 10 ^ 8) :
    |rrf [2, 1/2] [1/2, 1/2] w| ≤ 1 / 10 ^ 6 := by
  have hw01 := rrNewton_mem p hp0 hp1
  rw [← hw] at hw01
  have hdfne : rrdfdv [2, 1/2] [1/2, 1/2] p ≠ 0 := (rrdfdv_neg p hp0 hp1).ne
  have hFp : rrf [2, 1/2] [1/2, 1/2] p = rrdfdv [2, 1/2] [1/2, 1/2] p * (p - w) := by
    rw [hw, rrNewton]
    field_simp
  have h1 : |rrf [2, 1/2] [1/2, 1/2] p| ≤ 1 / 10 ^ 8 := by
    rw [hFp, abs_mul]
    calc |rrdfdv [2, 1/2] [1/2, 1/2] p| * |p - w| ≤ 1 * (1 / 10 ^ 8) :=
          mul_le_mul (rrdfdv_abs_le p hp0 hp1) hclose (abs_nonneg _) one_pos.le
      _ = 1 / 10 ^ 8 := one_mul _
  have h2 := rrf_lipschitz w p hw01.1 hw01.2 hp0 hp1
  have h3 : |rrf [2, 1/2] [1/2, 1/2] w| ≤
      |rrf [2, 1/2] [1/2, 1/2] w - rrf [2, 1/2] [1/2, 1/2] p| + |rrf [2, 1/2] [1/2, 1/2] p| := by
    calc |rrf [2, 1/2] [1/2, 1/2] w| =
        |(rrf [2, 1/2] [1/2, 1/2] w - rrf [2, 1/2] [1/2, 1/2] p) + rrf [2, 1/2] [1/2, 1/2] p| := by
          rw [sub_add_cancel]
      _ ≤ _ := abs_add _ _
  have h4 : |w - p| ≤ 1 / 10 ^ 8 := by rwa [abs_sub_comm]
  calc |rrf [2, 1/2] [1/2, 1/2] w| ≤ |w - p| + |rrf [2, 1/2] [1/2, 1/2] p| := by
        linarith [h2, h3]
    _ ≤ 1 / 10 ^ 8 + 1 / 10 ^ 8 := by linarith
    _ ≤ 1 / 10 ^ 6 := by norm_num

theorem rachfordRiceGo_residual :
    ∀ (fuel : ℕ) (err v0 v1 : ℚ) (iter : ℤ),
      0 ≤ v0 → v0 ≤ 1 →
      (¬ (1 / 10 ^ 8 : ℚ) < err →
        ∃ p, 0 ≤ p ∧ p ≤ 1 ∧ v1 = rrNewton [2, 1/2] [1/2, 1/2] p ∧ |p - v1| ≤ 1 / 10 ^ 8) →
      ∀ w, rachfordRiceGo [2, 1/2] [1/2, 1/2] (1 / 10 ^ 8) 500 fuel err v0 v1 iter = some w →
      |rrf [2, 1/2] [1/2, 1/2] w| ≤ 1 / 10 ^ 6 := by
  intro fuel
  induction fuel with
  | zero =>
      intro err v0 v1 iter h0 h1 hinv w hw
      unfold rachfordRiceGo at hw
      split at hw
      · exact absurd hw (by simp)
      · rename_i hguard
        injection hw with hw
        subst hw
        rcases hinv (not_or.mp hguard).1 with ⟨p, hp0, hp1, hform, hclose⟩
        exact rr_exit_residual p v1 hp0 hp1 hform hclose
  | succ fuel ih =>
      intro err v0 v1 iter h0 h1 hinv w hw
      unfold rachfordRiceGo at hw
      split at hw
      · refine ih _ _ _ _ (rrNewton_mem v0 h0 h1).1 (rrNewton_mem v0 h0 h1).2 ?_ w hw
        intro hne
        exact ⟨v0, h0, h1, rfl, not_lt.mp hne⟩
      · rename_i hguard
        injection hw with hw
        subst hw
        rcases hinv (not_or.mp hguard).1 with ⟨p, hp0, hp1, hform, hclose⟩
        exact rr_exit_residual p v1 hp0 hp1 hform hclose

/-- C9: for k = [2, 1/2], z = [1/2, 1/2] with the internal tolerance 1e-8 and cap
kmax = 500 used by the flash loop, whenever _RachfordRice returns from an initial
guess v0 in [0, 1], the returned vapor fraction w satisfies
abs(sum(z * (k - 1) / (1 + w * (k - 1)))) <= 1e-6. -/
theorem rachfordRice_pair_residual (v0 : ℚ) (h0 : 0 ≤ v0) (h1 : v0 ≤ 1) (fuel : ℕ) (w : ℚ)
    (hw : RachfordRice v0 [2, 1/2] [1/2, 1/2] (1 / 10 ^ 8) 500 fuel = some w) :
    |rrf [2, 1/2] [1/2, 1/2] w| ≤ 1 / 10 ^ 6 := by
  apply rachfordRiceGo_residual fuel 1000 v0 999 0 h0 h1 _ w hw
  intro hc
  exact absurd (by norm_num : (1 / 10 ^ 8 : ℚ) < 1000) hc

/-- Witness for C9 at v0 = 1/2, where the loop stops after one Newton step. -/
theorem rachfordRice_pair_residual_witness :
    |rrf [2, 1/2] [1/2, 1/2] (1/2)| ≤ 1 / 10 ^ 6 :=
  rachfordRice_pair_residual (1/2) (by norm_num) (by norm_num) 2 (1/2)
    (by norm_num [RachfordRice, rachfordRiceGo, rrNewton, rrf, rrdfdv, abs_eval])

/-- C7: every value returned by the Z-factor evaluation is non-negative, and the
returned set is exactly the output of the cubic root solver on the dimensionless
coefficients built from b, theta, delta, epsilon at (P, T), filtered by
non-negativity. -/
theorem solveZ_roots_nonneg (solve_cubic : ℚ → ℚ → ℚ → ℚ → List ℚ)
    (b theta delta epsilon T P R : ℚ) :
    (∀ r ∈ getZfromPT_helper solve_cubic b theta delta epsilon T P R, 0 ≤ r) ∧
    (∀ r : ℚ, r ∈ getZfromPT_helper solve_cubic b theta delta epsilon T P R ↔
      (r ∈ solve_cubic 1 (delta * P / (R * T) - b * P / (R * T) - 1)
          (theta * P / (R * T) ^ 2 + epsilon * (P / (R * T)) ^ 2 -
            delta * P / (R * T) * (1 + b * P / (R * T)))
          (-(epsilon * (P / (R * T)) ^ 2 * (b * P / (R * T) + 1) +
            b * P / (R * T) * (theta * P / (R * T) ^ 2))) ∧ 0 ≤ r)) := by
  constructor
  · intro r hr
    unfold getZfromPT_helper at hr
    simp only [List.mem_filter, decide_eq_true_eq] at hr
    exact hr.2
  · intro r
    unfold getZfromPT_helper
    simp only [List.mem_filter, decide_eq_true_eq]

/-- Witness for C7: with a root solver returning [5, -3], the filtered set keeps 5
and the theorem yields its non-negativity. -/
theorem solveZ_roots_nonneg_witness : (0 : ℚ) ≤ 5 :=
  (solveZ_roots_nonneg (fun _ _ _ _ => [5, -3]) 1 1 1 1 1 1 1).1 5
    (by norm_num [getZfromPT_helper])

/-- C4 amended: getPhi_i evaluates the separate limiting-case closed form exactly
when abs(deltam^2 - 4 epsilonm) < 100 * DBL_EPSILON and the general analytic
formula otherwise; in the general branch the guarded quantity deltam^2 - 4
epsilonm is nonzero (so the divisions by its square root and by its powers are
not divisions by zero), and under V != bm the division by V - bm is not by zero.
The original claim that no division by zero occurs anywhere in either branch is
refuted by the counterexample below, where the limiting branch divides by
V + deltam / 2 = 0. -/
theorem phi_limiting_branch_selection (sqrtO logO expO pow15O : ℚ → ℚ)
    (P T Z R bm thetam deltam epsilonm dth dbm ddm dem : ℚ) :
    ((getPhi_i_helper sqrtO logO expO pow15O P T Z R bm thetam deltam epsilonm
        dth dbm ddm dem DBL_EPSILON).usedLimitingForm = true ↔
      |deltam * deltam - 4 * epsilonm| < 100 * DBL_EPSILON) ∧
    ((getPhi_i_helper sqrtO logO expO pow15O P T Z R bm thetam deltam epsilonm
        dth dbm ddm dem DBL_EPSILON).usedLimitingForm = false →
      deltam * deltam - 4 * epsilonm ≠ 0) ∧
    (R * T * Z / P ≠ bm → R * T * Z / P - bm ≠ 0) := by
  refine ⟨?_, ?_, fun h => sub_ne_zero_of_ne h⟩ <;> unfold getPhi_i_helper <;>
    dsimp only <;> split
  · rename_i hcond
    simpa using hcond
  · rename_i hcond
    simpa using hcond
  · intro hfalse
    simp at hfalse
  · rename_i hcond
    intro _ hzero
    apply hcond
    rw [hzero]
    norm_num [DBL_EPSILON]

/-- Witness for C4 amended at deltam = 3, epsilonm = 1: the general branch runs
and its guarded quantity 5 is nonzero. -/
theorem phi_limiting_branch_selection_witness : (3 * 3 - 4 * 1 : ℚ) ≠ 0 :=
  (phi_limiting_branch_selection id id id id 1 1 1 1 0 1 3 1 0 0 0 0).2.1
    (by norm_num [getPhi_i_helper, DBL_EPSILON, abs_eval])

/-- C4 counterexample: at P = T = Z = R = 1, bm = 0, deltam = -2, epsilonm = 1 the
branch condition holds (the discriminant is exactly 0) and V = 1 differs from
bm = 0, yet the limiting branch divides by V + deltam / 2 = 0: the executed
denominator list contains 0, refuting the claim that no division by zero occurs
in either branch under those preconditions. -/
theorem phi_limiting_branch_divzero_counterexample :
    (getPhi_i_helper id id id id 1 1 1 1 0 1 (-2) 1 0 0 0 0
      DBL_EPSILON).usedLimitingForm = true ∧
    (1 * 1 * 1 / 1 - 0 : ℚ) ≠ 0 ∧
    (0 : ℚ) ∈ (getPhi_i_helper id id id id 1 1 1 1 0 1 (-2) 1 0 0 0 0
      DBL_EPSILON).denominators := by
  refine ⟨?_, by norm_num, ?_⟩ <;>
    norm_num [getPhi_i_helper, DBL_EPSILON, abs_eval]

/-- C5: for a mixture for which UNIFAC is unavailable (fewer than 2 substances or
no UNIFAC data for the substance ids), the constructor leaves vle_method at
phi-phi, setVLEmethod with any argument (including UNIFAC) leaves it at phi-phi,
and every subsequent getFlash dispatch runs the phi-phi variant (no solve-time
failure from the unavailable selection). -/
theorem setVLEmethod_clamps_to_phi_phi (base : EOSMixtureM) (db : List ℕ → Bool)
    (method : String) (z : List ℚ) (P T tol : ℚ) (kmax rrFuel : ℕ)
    (h : base.subs_ids.length < 2 ∨ db base.subs_ids = false) :
    (mkEOSMixture base db).vle_method = "phi-phi" ∧
    ((mkEOSMixture base db).setVLEmethod method).vle_method = "phi-phi" ∧
    ((mkEOSMixture base db).setVLEmethod method).getFlash z P T tol kmax rrFuel =
      ((mkEOSMixture base db).setVLEmethod method).getFlash_phi_phi z P T tol kmax rrFuel := by
  have hu : hasUNIFAC db base.subs_ids = false := by
    unfold hasUNIFAC
    rcases h with h | h
    · rw [if_pos h]
    · split
      · rfl
      · exact h
  have h2 : ((mkEOSMixture base db).setVLEmethod method).vle_method = "phi-phi" := by
    unfold EOSMixtureM.setVLEmethod mkEOSMixture
    simp [hu]
  refine ⟨rfl, h2, ?_⟩
  unfold EOSMixtureM.getFlash
  rw [if_pos h2]

/-- Witness for C5: one concrete mixture whose database query fails, set to
UNIFAC, stays at phi-phi. -/
theorem setVLEmethod_clamps_to_phi_phi_witness :
    ((mkEOSMixture cMix (fun _ => false)).setVLEmethod "UNIFAC").vle_method = "phi-phi" :=
  (setVLEmethod_clamps_to_phi_phi cMix (fun _ => false) "UNIFAC" [1/2, 1/2] 1 1 1 1 1
    (Or.inr rfl)).2.1

/-- C10: flash solving is deterministic and mutation free. In the stateful
embedding (object state threaded through every sub-call, attribute assignment
being the only state update a method body can make) getFlashS returns the object
unchanged, and a second call on the returned object with the same inputs returns
the same result and again the same object. -/
theorem getFlash_deterministic_no_mutation (m : EOSMixtureM) (z : List ℚ)
    (P T tol : ℚ) (kmax rrFuel : ℕ) :
    (m.getFlashS z P T tol kmax rrFuel).2 = m ∧
    ((m.getFlashS z P T tol kmax rrFuel).2.getFlashS z P T tol kmax rrFuel).1 =
      (m.getFlashS z P T tol kmax rrFuel).1 ∧
    ((m.getFlashS z P T tol kmax rrFuel).2.getFlashS z P T tol kmax rrFuel).2 = m := by
  have h : ∀ m' : EOSMixtureM, (m'.getFlashS z P T tol kmax rrFuel).2 = m' := by
    intro m'
    unfold EOSMixtureM.getFlashS EOSMixtureM.getFlash_phi_phiS EOSMixtureM.getFlash_UNIFACS
      EOSMixtureM.getDewPointPressureS EOSMixtureM.getBubblePointPressureS
    split
    · split
      · rfl
      · split
        · rfl
        · dsimp only
          split <;> rfl
    · split
      · split
        · rfl
        · split
          · rfl
          · dsimp only
            split <;> rfl
      · rfl
  exact ⟨h m, by rw [h m], by rw [h m]; exact h m⟩

/-- With both asserts passing and the loop completing, getBubblePointPressure_phi_phi
returns the loop output. -/
theorem bubbleP_phi_ok (m : EOSMixtureM) (x : List ℚ) (T tol : ℚ) (kmax : ℕ)
    (hlen : x.length = m.n) (hsum : x.sum = 1) (r : BubblePSt × ℚ × ℕ)
    (hloop : vleLoop (bubblePBody m x T) tol kmax (bubblePInit m x T) 100 = .ok r) :
    m.getBubblePointPressure_phi_phi x T tol kmax = .ok (bubblePResultOf r) := by
  unfold EOSMixtureM.getBubblePointPressure_phi_phi
  rw [if_neg (by simp [hlen]), if_neg (by simp [hsum]), hloop]

/-- With both asserts passing and the loop completing, getDewPointPressure_phi_phi
returns the loop output. -/
theorem dewP_phi_ok (m : EOSMixtureM) (y : List ℚ) (T tol : ℚ) (kmax : ℕ)
    (hlen : y.length = m.n) (hsum : y.sum = 1) (r : DewPSt × ℚ × ℕ)
    (hloop : vleLoop (dewPBody m y T) tol kmax (dewPInit m y T) 100 = .ok r) :
    m.getDewPointPressure_phi_phi y T tol kmax = .ok (dewPResultOf r) := by
  unfold EOSMixtureM.getDewPointPressure_phi_phi
  rw [if_neg (by simp [hlen]), if_neg (by simp [hsum]), hloop]

/-- With both asserts passing, a completed loop whose final state still has y
unbound (zero iterations) makes getBubblePointPressure_UNIFAC raise
UnboundLocalError: line 434 reads the loop-only variable y. -/
theorem bubbleP_UNIFAC_unbound (m : EOSMixtureM) (x : List ℚ) (T tol : ℚ)
    (kmax : ℕ) (hlen : x.length = m.n) (hsum : x.sum = 1) (r : BubblePUSt × ℚ × ℕ)
    (hloop : vleLoop (bubblePUBody m x (m.gammaO x T) (m.psatO T) T) tol kmax
      (bubblePUInit m x T) 100 = .ok r) (hy : r.1.y = none) :
    m.getBubblePointPressure_UNIFAC x T tol kmax = .error .unboundLocalError := by
  unfold EOSMixtureM.getBubblePointPressure_UNIFAC
  rw [if_neg (by simp [hlen]), if_neg (by simp [hsum]), hloop]
  dsimp only
  rw [hy]

/-- With both asserts passing, a completed loop with y bound and a succeeding
post-loop getPhiVap make getBubblePointPressure_UNIFAC return the loop output. -/
theorem bubbleP_UNIFAC_ok (m : EOSMixtureM) (x : List ℚ) (T tol : ℚ) (kmax : ℕ)
    (hlen : x.length = m.n) (hsum : x.sum = 1) (r : BubblePUSt × ℚ × ℕ)
    (yv phivap : List ℚ)
    (hloop : vleLoop (bubblePUBody m x (m.gammaO x T) (m.psatO T) T) tol kmax
      (bubblePUInit m x T) 100 = .ok r) (hy : r.1.y = some yv)
    (hpv : m.getPhiVap yv r.1.pb T = .ok phivap) :
    m.getBubblePointPressure_UNIFAC x T tol kmax =
      .ok (bubblePUResultOf m x T yv phivap r) := by
  unfold EOSMixtureM.getBubblePointPressure_UNIFAC
  rw [if_neg (by simp [hlen]), if_neg (by simp [hsum]), hloop]
  dsimp only
  rw [hy]
  dsimp only
  rw [hpv]

/-- With both asserts passing, a succeeding pre-loop state, a completed loop and
a succeeding post-loop getPhiVap, getDewPointPressure_UNIFAC returns the loop
output. -/
theorem dewP_UNIFAC_ok (m : EOSMixtureM) (y : List ℚ) (T tol : ℚ) (kmax : ℕ)
    (hlen : y.length = m.n) (hsum : y.sum = 1) (s0 : DewPUSt) (r : DewPUSt × ℚ × ℕ)
    (phivap : List ℚ) (hinit : dewPUInit m y T = .ok s0)
    (hloop : vleLoop (dewPUBody m y (m.psatO T) T kmax tol) tol kmax s0 100 = .ok r)
    (hpv : m.getPhiVap y r.1.pd T = .ok phivap) :
    m.getDewPointPressure_UNIFAC y T tol kmax = .ok (dewPUResultOf m y T phivap r) := by
  unfold EOSMixtureM.getDewPointPressure_UNIFAC
  rw [if_neg (by simp [hlen]), if_neg (by simp [hsum]), hinit]
  dsimp only
  rw [hloop]
  dsimp only
  rw [hpv]

/-- With both asserts passing and the loop completing,
getBubblePointTemperature_phi_phi returns the loop output. -/
theorem bubbleT_phi_ok (m : EOSMixtureM) (x : List ℚ) (P tol : ℚ) (kmax : ℕ)
    (hlen : x.length = m.n) (hsum : x.sum = 1) (r : BubbleTSt × ℚ × ℕ)
    (hloop : vleLoop (bubbleTBody m x P) tol kmax (bubbleTInit m x P) 100 = .ok r) :
    m.getBubblePointTemperature_phi_phi x P tol kmax = .ok (bubbleTResultOf r) := by
  unfold EOSMixtureM.getBubblePointTemperature_phi_phi
  rw [if_neg (by simp [hlen]), if_neg (by simp [hsum]), hloop]

/-- With both asserts passing and the loop completing,
getDewPointTemperature_phi_phi returns the loop output. -/
theorem dewT_phi_ok (m : EOSMixtureM) (y : List ℚ) (P tol : ℚ) (kmax : ℕ)
    (hlen : y.length = m.n) (hsum : y.sum = 1) (r : DewTSt × ℚ × ℕ)
    (hloop : vleLoop (dewTBody m y P) tol kmax (dewTInit m y P) 100 = .ok r) :
    m.getDewPointTemperature_phi_phi y P tol kmax = .ok (dewTResultOf r) := by
  unfold EOSMixtureM.getDewPointTemperature_phi_phi
  rw [if_neg (by simp [hlen]), if_neg (by simp [hsum]), hloop]

/-- With both asserts passing, a succeeding pre-loop state, a completed loop and
a succeeding post-loop getPhiVap, getBubblePointTemperature_UNIFAC returns the
loop output. -/
theorem bubbleT_UNIFAC_ok (m : EOSMixtureM) (x : List ℚ) (P tol : ℚ) (kmax : ℕ)
    (hlen : x.length = m.n) (hsum : x.sum = 1) (s0 : BubbleTUSt)
    (r : BubbleTUSt × ℚ × ℕ) (phivap : List ℚ) (hinit : bubbleTUInit m x P = .ok s0)
    (hloop : vleLoop (bubbleTUBody m x P) tol kmax s0 100 = .ok r)
    (hpv : m.getPhiVap r.1.y P r.1.tb = .ok phivap) :
    m.getBubblePointTemperature_UNIFAC x P tol kmax =
      .ok (bubbleTUResultOf m P phivap r) := by
  unfold EOSMixtureM.getBubblePointTemperature_UNIFAC
  rw [if_neg (by simp [hlen]), if_neg (by simp [hsum]), hinit]
  dsimp only
  rw [hloop]
  dsimp only
  rw [hpv]

/-- With both asserts passing, a succeeding pre-loop state, a completed loop and
a succeeding post-loop getPhiVap, getDewPointTemperature_UNIFAC returns the loop
output. -/
theorem dewT_UNIFAC_ok (m : EOSMixtureM) (y : List ℚ) (P tol : ℚ) (kmax : ℕ)
    (hlen : y.length = m.n) (hsum : y.sum = 1) (s0 : DewTUSt) (r : DewTUSt × ℚ × ℕ)
    (phivap : List ℚ) (hinit : dewTUInit m y P = .ok s0)
    (hloop : vleLoop (dewTUBody m y P) tol kmax s0 100 = .ok r)
    (hpv : m.getPhiVap y P r.1.td = .ok phivap) :
    m.getDewPointTemperature_UNIFAC y P tol kmax = .ok (dewTUResultOf m y P phivap r) := by
  unfold EOSMixtureM.getDewPointTemperature_UNIFAC
  rw [if_neg (by simp [hlen]), if_neg (by simp [hsum]), hinit]
  dsimp only
  rw [hloop]
  dsimp only
  rw [hpv]

/-- With the asserts passing, getBubblePointPressure_phi_phi never reports an
assertion failure: every other outcome is the loop output or a propagated
runtime exception. -/
theorem bubbleP_phi_no_assert (m : EOSMixtureM) (x : List ℚ) (T tol : ℚ)
    (kmax : ℕ) (hlen : x.length = m.n) (hsum : x.sum = 1) :
    m.getBubblePointPressure_phi_phi x T tol kmax ≠ .error .assertError := by
  unfold EOSMixtureM.getBubblePointPressure_phi_phi
  rw [if_neg (by simp [hlen]), if_neg (by simp [hsum])]
  split
  · rename_i e hloop
    obtain ⟨s2, hs2⟩ := vleLoop_error _ _ _ _ _ _ hloop
    rcases bubblePBody_error _ _ _ _ _ hs2 with hb | hb <;> subst hb <;> simp
  · simp

/-- Same for getDewPointPressure_phi_phi. -/
theorem dewP_phi_no_assert (m : EOSMixtureM) (y : List ℚ) (T tol : ℚ)
    (kmax : ℕ) (hlen : y.length = m.n) (hsum : y.sum = 1) :
    m.getDewPointPressure_phi_phi y T tol kmax ≠ .error .assertError := by
  unfold EOSMixtureM.getDewPointPressure_phi_phi
  rw [if_neg (by simp [hlen]), if_neg (by simp [hsum])]
  split
  · rename_i e hloop
    obtain ⟨s2, hs2⟩ := vleLoop_error _ _ _ _ _ _ hloop
    rcases dewPBody_error _ _ _ _ _ hs2 with hb | hb <;> subst hb <;> simp
  · simp

/-- Same for getBubblePointPressure_UNIFAC: the possible outcomes beyond the
loop output are propagated runtime exceptions and the zero-iteration
UnboundLocalError, none of which is an assertion failure. -/
theorem bubbleP_UNIFAC_no_assert (m : EOSMixtureM) (x : List ℚ) (T tol : ℚ)
    (kmax : ℕ) (hlen : x.length = m.n) (hsum : x.sum = 1) :
    m.getBubblePointPressure_UNIFAC x T tol kmax ≠ .error .assertError := by
  unfold EOSMixtureM.getBubblePointPressure_UNIFAC
  rw [if_neg (by simp [hlen]), if_neg (by simp [hsum])]
  split
  · rename_i e hloop
    obtain ⟨s2, hs2⟩ := vleLoop_error _ _ _ _ _ _ hloop
    rcases bubblePUBody_error _ _ _ _ _ _ _ hs2 with hb | hb <;> subst hb <;> simp
  · rename_i r hloop
    split
    · simp
    · split
      · rename_i e hpv
        have he := getPhiVap_error _ _ _ _ _ hpv
        subst he
        simp
      · simp

/-- Same for getDewPointPressure_UNIFAC. -/
theorem dewP_UNIFAC_no_assert (m : EOSMixtureM) (y : List ℚ) (T tol : ℚ)
    (kmax : ℕ) (hlen : y.length = m.n) (hsum : y.sum = 1) :
    m.getDewPointPressure_UNIFAC y T tol kmax ≠ .error .assertError := by
  unfold EOSMixtureM.getDewPointPressure_UNIFAC
  rw [if_neg (by simp [hlen]), if_neg (by simp [hsum])]
  split
  · rename_i e hinit
    have he := dewPUInit_error _ _ _ _ hinit
    subst he
    simp
  · rename_i s0 hinit
    split
    · rename_i e hloop
      obtain ⟨s2, hs2⟩ := vleLoop_error _ _ _ _ _ _ hloop
      rcases dewPUBody_error _ _ _ _ _ _ _ _ hs2 with hb | hb <;> subst hb <;> simp
    · rename_i r hloop
      split
      · rename_i e hpv
        have he := getPhiVap_error _ _ _ _ _ hpv
        subst he
        simp
      · simp

/-- Same for getBubblePointTemperature_phi_phi. -/
theorem bubbleT_phi_no_assert (m : EOSMixtureM) (x : List ℚ) (P tol : ℚ)
    (kmax : ℕ) (hlen : x.length = m.n) (hsum : x.sum = 1) :
    m.getBubblePointTemperature_phi_phi x P tol kmax ≠ .error .assertError := by
  unfold EOSMixtureM.getBubblePointTemperature_phi_phi
  rw [if_neg (by simp [hlen]), if_neg (by simp [hsum])]
  split
  · rename_i e hloop
    obtain ⟨s2, hs2⟩ := vleLoop_error _ _ _ _ _ _ hloop
    rcases bubbleTBody_error _ _ _ _ _ hs2 with hb | hb <;> subst hb <;> simp
  · simp

/-- Same for getDewPointTemperature_phi_phi. -/
theorem dewT_phi_no_assert (m : EOSMixtureM) (y : List ℚ) (P tol : ℚ)
    (kmax : ℕ) (hlen : y.length = m.n) (hsum : y.sum = 1) :
    m.getDewPointTemperature_phi_phi y P tol kmax ≠ .error .assertError := by
  unfold EOSMixtureM.getDewPointTemperature_phi_phi
  rw [if_neg (by simp [hlen]), if_neg (by simp [hsum])]
  split
  · rename_i e hloop
    obtain ⟨s2, hs2⟩ := vleLoop_error _ _ _ _ _ _ hloop
    rcases dewTBody_error _ _ _ _ _ hs2 with hb | hb <;> subst hb <;> simp
  · simp

/-- Same for getBubblePointTemperature_UNIFAC. -/
theorem bubbleT_UNIFAC_no_assert (m : EOSMixtureM) (x : List ℚ) (P tol : ℚ)
    (kmax : ℕ) (hlen : x.length = m.n) (hsum : x.sum = 1) :
    m.getBubblePointTemperature_UNIFAC x P tol kmax ≠ .error .assertError := by
  unfold EOSMixtureM.getBubblePointTemperature_UNIFAC
  rw [if_neg (by simp [hlen]), if_neg (by simp [hsum])]
  split
  · rename_i e hinit
    have he := bubbleTUInit_error _ _ _ _ hinit
    subst he
    simp
  · rename_i s0 hinit
    split
    · rename_i e hloop
      obtain ⟨s2, hs2⟩ := vleLoop_error _ _ _ _ _ _ hloop
      rcases bubbleTUBody_error _ _ _ _ _ hs2 with hb | hb <;> subst hb <;> simp
    · rename_i r hloop
      split
      · rename_i e hpv
        have he := getPhiVap_error _ _ _ _ _ hpv
        subst he
        simp
      · simp

/-- Same for getDewPointTemperature_UNIFAC. -/
theorem dewT_UNIFAC_no_assert (m : EOSMixtureM) (y : List ℚ) (P tol : ℚ)
    (kmax : ℕ) (hlen : y.length = m.n) (hsum : y.sum = 1) :
    m.getDewPointTemperature_UNIFAC y P tol kmax ≠ .error .assertError := by
  unfold EOSMixtureM.getDewPointTemperature_UNIFAC
  rw [if_neg (by simp [hlen]), if_neg (by simp [hsum])]
  split
  · rename_i e hinit
    have he := dewTUInit_error _ _ _ _ hinit
    subst he
    simp
  · rename_i s0 hinit
    split
    · rename_i e hloop
      obtain ⟨s2, hs2⟩ := vleLoop_error _ _ _ _ _ _ hloop
      rcases dewTUBody_error _ _ _ _ _ hs2 with hb | hb <;> subst hb <;> simp
    · rename_i r hloop
      split
      · rename_i e hpv
        have he := getPhiVap_error _ _ _ _ _ hpv
        subst he
        simp
      · simp

/-- With the asserts passing, the dew-pressure dispatch never reports an
assertion failure (either variant, or the NotImplementedError fallthrough). -/
theorem dewP_dispatch_no_assert (m : EOSMixtureM) (y : List ℚ) (T tol : ℚ)
    (kmax : ℕ) (hlen : y.length = m.n) (hsum : y.sum = 1) :
    m.getDewPointPressure y T tol kmax ≠ .error .assertError := by
  unfold EOSMixtureM.getDewPointPressure
  split
  · exact dewP_phi_no_assert m y T tol kmax hlen hsum
  · split
    · exact dewP_UNIFAC_no_assert m y T tol kmax hlen hsum
    · simp

/-- Same for the bubble-pressure dispatch. -/
theorem bubbleP_dispatch_no_assert (m : EOSMixtureM) (x : List ℚ) (T tol : ℚ)
    (kmax : ℕ) (hlen : x.length = m.n) (hsum : x.sum = 1) :
    m.getBubblePointPressure x T tol kmax ≠ .error .assertError := by
  unfold EOSMixtureM.getBubblePointPressure
  split
  · exact bubbleP_phi_no_assert m x T tol kmax hlen hsum
  · split
    · exact bubbleP_UNIFAC_no_assert m x T tol kmax hlen hsum
    · simp

/-- The flash core (bracket check plus loop) never reports an assertion failure. -/
theorem flashPhiPhiCore_no_assert (m : EOSMixtureM) (z : List ℚ) (P T tol : ℚ)
    (kmax rrFuel : ℕ) (dres bres : EqResult) :
    flashPhiPhiCore m z P T tol kmax rrFuel dres bres ≠ .error .assertError := by
  unfold flashPhiPhiCore
  dsimp only
  split
  · simp
  · split
    · rename_i e hloop
      obtain ⟨s2, hs2⟩ := vleLoop_error _ _ _ _ _ _ hloop
      rcases flashBody_error _ _ _ _ _ _ _ hs2 with hb | hb <;> subst hb <;> simp
    · simp

/-- Same for the UNIFAC flash core. -/
theorem flashUNIFACCore_no_assert (m : EOSMixtureM) (z : List ℚ) (P T tol : ℚ)
    (kmax rrFuel : ℕ) (dres bres : EqResult) :
    flashUNIFACCore m z P T tol kmax rrFuel dres bres ≠ .error .assertError := by
  unfold flashUNIFACCore
  dsimp only
  split
  · simp
  · split
    · rename_i e hloop
      obtain ⟨s2, hs2⟩ := vleLoop_error _ _ _ _ _ _ hloop
      rcases flashUBody_error _ _ _ _ _ _ _ _ hs2 with hb | hb <;> subst hb <;> simp
    · split
      · simp
      · split <;> simp

/-- The flash core yields the domain error exactly when P is outside the closed
dew/bubble bracket: inside the bracket every outcome is the loop output or a
propagated runtime exception distinct from the domain ValueError. -/
theorem flashPhiPhiCore_valueError_iff (m : EOSMixtureM) (z : List ℚ) (P T tol : ℚ)
    (kmax rrFuel : ℕ) (dres bres : EqResult) :
    flashPhiPhiCore m z P T tol kmax rrFuel dres bres = .error .valueError ↔
      ¬(dres.2.1 ≤ P ∧ P ≤ bres.2.1) := by
  unfold flashPhiPhiCore
  dsimp only
  split
  · rename_i h
    simp [h]
  · rename_i h
    constructor
    · intro heq
      exfalso
      revert heq
      split
      · rename_i e hloop
        intro heq
        injection heq with heq
        obtain ⟨s2, hs2⟩ := vleLoop_error _ _ _ _ _ _ hloop
        rcases flashBody_error _ _ _ _ _ _ _ hs2 with hb | hb <;>
          rw [heq] at hb <;> exact PyError.noConfusion hb
      · intro heq
        exact Except.noConfusion heq
    · intro hc
      exact absurd (not_not.mp h) hc

/-- Same for the UNIFAC flash core; the zero-iteration UnboundLocalError is also
distinct from the domain ValueError. -/
theorem flashUNIFACCore_valueError_iff (m : EOSMixtureM) (z : List ℚ) (P T tol : ℚ)
    (kmax rrFuel : ℕ) (dres bres : EqResult) :
    flashUNIFACCore m z P T tol kmax rrFuel dres bres = .error .valueError ↔
      ¬(dres.2.1 ≤ P ∧ P ≤ bres.2.1) := by
  unfold flashUNIFACCore
  dsimp only
  split
  · rename_i h
    simp [h]
  · rename_i h
    constructor
    · intro heq
      exfalso
      revert heq
      split
      · rename_i e hloop
        intro heq
        injection heq with heq
        obtain ⟨s2, hs2⟩ := vleLoop_error _ _ _ _ _ _ hloop
        rcases flashUBody_error _ _ _ _ _ _ _ _ hs2 with hb | hb <;>
          rw [heq] at hb <;> exact PyError.noConfusion hb
      · split
        · intro heq
          injection heq with heq
          exact PyError.noConfusion heq
        · split
          · intro heq
            injection heq with heq
            exact PyError.noConfusion heq
          · intro heq
            exact Except.noConfusion heq
    · intro hc
      exact absurd (not_not.mp h) hc

/-- Inside the bracket, the phi-phi flash core is exactly the flash loop: a
propagated body exception, or the loop result tuple. -/
theorem flashPhiPhiCore_loop (m : EOSMixtureM) (z : List ℚ) (P T tol : ℚ)
    (kmax rrFuel : ℕ) (dres bres : EqResult)
    (hbr : dres.2.1 ≤ P ∧ P ≤ bres.2.1) :
    flashPhiPhiCore m z P T tol kmax rrFuel dres bres =
      match vleLoop (flashBody m z P T rrFuel) tol kmax
          (flashInit m ((bres.2.1 - P) / (bres.2.1 - dres.2.1)) bres.2.2.2.2.1) 100 with
      | .error e => .error e
      | .ok r => .ok (flashResultOf r) := by
  unfold flashPhiPhiCore
  dsimp only
  rw [if_neg (not_not_intro hbr)]

/-- Inside the bracket, the UNIFAC flash core is the flash loop followed by the
line-921 reads of the loop-only variables phivap and gamma: a propagated body
exception; UnboundLocalError when they are still unbound (zero iterations);
otherwise the result tuple. -/
theorem flashUNIFACCore_loop (m : EOSMixtureM) (z : List ℚ) (P T tol : ℚ)
    (kmax rrFuel : ℕ) (dres bres : EqResult)
    (hbr : dres.2.1 ≤ P ∧ P ≤ bres.2.1) :
    flashUNIFACCore m z P T tol kmax rrFuel dres bres =
      match vleLoop (flashUBody m z (m.psatO T) P T rrFuel) tol kmax
          (flashUInit m ((bres.2.1 - P) / (bres.2.1 - dres.2.1)) bres.2.2.2.2.1) 100 with
      | .error e => .error e
      | .ok r =>
          match r.1.phivap with
          | none => .error .unboundLocalError
          | some pv =>
              match r.1.gamma with
              | none => .error .unboundLocalError
              | some gv => .ok (flashUResultOf pv gv r) := by
  unfold flashUNIFACCore
  dsimp only
  rw [if_neg (not_not_intro hbr)]

/-- With both asserts passing and both sub-solves landing ok, getFlash_phi_phi is
its core on those results. -/
theorem flash_phi_eq_core (m : EOSMixtureM) (z : List ℚ) (P T tol : ℚ)
    (kmax rrFuel : ℕ) (dres bres : EqResult)
    (hlen : z.length = m.n) (hsum : z.sum = 1)
    (hdew : m.getDewPointPressure z T (1000 * DBL_EPSILON) 1000 = .ok dres)
    (hbub : m.getBubblePointPressure z T (1000 * DBL_EPSILON) 1000 = .ok bres) :
    m.getFlash_phi_phi z P T tol kmax rrFuel =
      flashPhiPhiCore m z P T tol kmax rrFuel dres bres := by
  unfold EOSMixtureM.getFlash_phi_phi
  rw [if_neg (by simp [hlen]), if_neg (by simp [hsum]), hdew, hbub]

/-- Same for getFlash_UNIFAC. -/
theorem flash_UNIFAC_eq_core (m : EOSMixtureM) (z : List ℚ) (P T tol : ℚ)
    (kmax rrFuel : ℕ) (dres bres : EqResult)
    (hlen : z.length = m.n) (hsum : z.sum = 1)
    (hdew : m.getDewPointPressure z T (1000 * DBL_EPSILON) 1000 = .ok dres)
    (hbub : m.getBubblePointPressure z T (1000 * DBL_EPSILON) 1000 = .ok bres) :
    m.getFlash_UNIFAC z P T tol kmax rrFuel =
      flashUNIFACCore m z P T tol kmax rrFuel dres bres := by
  unfold EOSMixtureM.getFlash_UNIFAC
  rw [if_neg (by simp [hlen]), if_neg (by simp [hsum]), hdew, hbub]

/-- Assert semantics of getBubblePointPressure_phi_phi: the assertion failure
outcome happens exactly when the length check or the exact sum check fails. -/
theorem bubbleP_phi_assert_iff (m : EOSMixtureM) (x : List ℚ) (T tol : ℚ) (kmax : ℕ) :
    m.getBubblePointPressure_phi_phi x T tol kmax = .error .assertError ↔
      ¬(x.length = m.n ∧ x.sum = 1) := by
  constructor
  · intro heq hc
    exact bubbleP_phi_no_assert m x T tol kmax hc.1 hc.2 heq
  · intro hc
    unfold EOSMixtureM.getBubblePointPressure_phi_phi
    by_cases hlen : x.length = m.n
    · rw [if_neg (not_not_intro hlen), if_pos (fun hs => hc ⟨hlen, hs⟩)]
    · rw [if_pos hlen]

/-- Assert semantics of getDewPointPressure_phi_phi. -/
theorem dewP_phi_assert_iff (m : EOSMixtureM) (y : List ℚ) (T tol : ℚ) (kmax : ℕ) :
    m.getDewPointPressure_phi_phi y T tol kmax = .error .assertError ↔
      ¬(y.length = m.n ∧ y.sum = 1) := by
  constructor
  · intro heq hc
    exact dewP_phi_no_assert m y T tol kmax hc.1 hc.2 heq
  · intro hc
    unfold EOSMixtureM.getDewPointPressure_phi_phi
    by_cases hlen : y.length = m.n
    · rw [if_neg (not_not_intro hlen), if_pos (fun hs => hc ⟨hlen, hs⟩)]
    · rw [if_pos hlen]

/-- Assert semantics of getBubblePointPressure_UNIFAC. -/
theorem bubbleP_UNIFAC_assert_iff (m : EOSMixtureM) (x : List ℚ) (T tol : ℚ) (kmax : ℕ) :
    m.getBubblePointPressure_UNIFAC x T tol kmax = .error .assertError ↔
      ¬(x.length = m.n ∧ x.sum = 1) := by
  constructor
  · intro heq hc
    exact bubbleP_UNIFAC_no_assert m x T tol kmax hc.1 hc.2 heq
  · intro hc
    unfold EOSMixtureM.getBubblePointPressure_UNIFAC
    by_cases hlen : x.length = m.n
    · rw [if_neg (not_not_intro hlen), if_pos (fun hs => hc ⟨hlen, hs⟩)]
    · rw [if_pos hlen]

/-- Assert semantics of getDewPointPressure_UNIFAC. -/
theorem dewP_UNIFAC_assert_iff (m : EOSMixtureM) (y : List ℚ) (T tol : ℚ) (kmax : ℕ) :
    m.getDewPointPressure_UNIFAC y T tol kmax = .error .assertError ↔
      ¬(y.length = m.n ∧ y.sum = 1) := by
  constructor
  · intro heq hc
    exact dewP_UNIFAC_no_assert m y T tol kmax hc.1 hc.2 heq
  · intro hc
    unfold EOSMixtureM.getDewPointPressure_UNIFAC
    by_cases hlen : y.length = m.n
    · rw [if_neg (not_not_intro hlen), if_pos (fun hs => hc ⟨hlen, hs⟩)]
    · rw [if_pos hlen]

/-- Assert semantics of getBubblePointTemperature_phi_phi. -/
theorem bubbleT_phi_assert_iff (m : EOSMixtureM) (x : List ℚ) (P tol : ℚ) (kmax : ℕ) :
    m.getBubblePointTemperature_phi_phi x P tol kmax = .error .assertError ↔
      ¬(x.length = m.n ∧ x.sum = 1) := by
  constructor
  · intro heq hc
    exact bubbleT_phi_no_assert m x P tol kmax hc.1 hc.2 heq
  · intro hc
    unfold EOSMixtureM.getBubblePointTemperature_phi_phi
    by_cases hlen : x.length = m.n
    · rw [if_neg (not_not_intro hlen), if_pos (fun hs => hc ⟨hlen, hs⟩)]
    · rw [if_pos hlen]

/-- Assert semantics of getDewPointTemperature_phi_phi. -/
theorem dewT_phi_assert_iff (m : EOSMixtureM) (y : List ℚ) (P tol : ℚ) (kmax : ℕ) :
    m.getDewPointTemperature_phi_phi y P tol kmax = .error .assertError ↔
      ¬(y.length = m.n ∧ y.sum = 1) := by
  constructor
  · intro heq hc
    exact dewT_phi_no_assert m y P tol kmax hc.1 hc.2 heq
  · intro hc
    unfold EOSMixtureM.getDewPointTemperature_phi_phi
    by_cases hlen : y.length = m.n
    · rw [if_neg (not_not_intro hlen), if_pos (fun hs => hc ⟨hlen, hs⟩)]
    · rw [if_pos hlen]

/-- Assert semantics of getBubblePointTemperature_UNIFAC. -/
theorem bubbleT_UNIFAC_assert_iff (m : EOSMixtureM) (x : List ℚ) (P tol : ℚ) (kmax : ℕ) :
    m.getBubblePointTemperature_UNIFAC x P tol kmax = .error .assertError ↔
      ¬(x.length = m.n ∧ x.sum = 1) := by
  constructor
  · intro heq hc
    exact bubbleT_UNIFAC_no_assert m x P tol kmax hc.1 hc.2 heq
  · intro hc
    unfold EOSMixtureM.getBubblePointTemperature_UNIFAC
    by_cases hlen : x.length = m.n
    · rw [if_neg (not_not_intro hlen), if_pos (fun hs => hc ⟨hlen, hs⟩)]
    · rw [if_pos hlen]

/-- Assert semantics of getDewPointTemperature_UNIFAC. -/
theorem dewT_UNIFAC_assert_iff (m : EOSMixtureM) (y : List ℚ) (P tol : ℚ) (kmax : ℕ) :
    m.getDewPointTemperature_UNIFAC y P tol kmax = .error .assertError ↔
      ¬(y.length = m.n ∧ y.sum = 1) := by
  constructor
  · intro heq hc
    exact dewT_UNIFAC_no_assert m y P tol kmax hc.1 hc.2 heq
  · intro hc
    unfold EOSMixtureM.getDewPointTemperature_UNIFAC
    by_cases hlen : y.length = m.n
    · rw [if_neg (not_not_intro hlen), if_pos (fun hs => hc ⟨hlen, hs⟩)]
    · rw [if_pos hlen]

/-- Assert semantics of getFlash_phi_phi: with the asserts passing the outcome is
never an assertion failure (the sub-solves pass the same asserts, the dispatch at
worst falls through to NotImplementedError, and the core raises only the domain
error or runs the loop). -/
theorem flash_phi_assert_iff (m : EOSMixtureM) (z : List ℚ) (P T tol : ℚ)
    (kmax rrFuel : ℕ) :
    m.getFlash_phi_phi z P T tol kmax rrFuel = .error .assertError ↔
      ¬(z.length = m.n ∧ z.sum = 1) := by
  unfold EOSMixtureM.getFlash_phi_phi
  split
  · rename_i h
    simp [Ne.symm h]
  · rename_i h1
    split
    · rename_i h2
      simp [h2]
    · rename_i h2
      have hlen : z.length = m.n := (not_not.mp h1).symm
      have hsum : z.sum = 1 := not_not.mp h2
      constructor
      · intro heq
        exfalso
        cases hdew : m.getDewPointPressure z T (1000 * DBL_EPSILON) 1000 with
        | error e =>
            rw [hdew] at heq
            cases hbub : m.getBubblePointPressure z T (1000 * DBL_EPSILON) 1000 with
            | error e2 =>
                rw [hbub] at heq
                simp only [] at heq
                injection heq with heq
                exact dewP_dispatch_no_assert m z T _ _ hlen hsum (by rw [hdew, heq])
            | ok bres =>
                rw [hbub] at heq
                simp only [] at heq
                injection heq with heq
                exact dewP_dispatch_no_assert m z T _ _ hlen hsum (by rw [hdew, heq])
        | ok dres =>
            rw [hdew] at heq
            cases hbub : m.getBubblePointPressure z T (1000 * DBL_EPSILON) 1000 with
            | error e2 =>
                rw [hbub] at heq
                simp only [] at heq
                injection heq with heq
                exact bubbleP_dispatch_no_assert m z T _ _ hlen hsum (by rw [hbub, heq])
            | ok bres =>
                rw [hbub] at heq
                exact flashPhiPhiCore_no_assert m z P T tol kmax rrFuel dres bres heq
      · intro hc
        exact absurd ⟨hlen, hsum⟩ hc

/-- Assert semantics of getFlash_UNIFAC. -/
theorem flash_UNIFAC_assert_iff (m : EOSMixtureM) (z : List ℚ) (P T tol : ℚ)
    (kmax rrFuel : ℕ) :
    m.getFlash_UNIFAC z P T tol kmax rrFuel = .error .assertError ↔
      ¬(z.length = m.n ∧ z.sum = 1) := by
  unfold EOSMixtureM.getFlash_UNIFAC
  split
  · rename_i h
    simp [Ne.symm h]
  · rename_i h1
    split
    · rename_i h2
      simp [h2]
    · rename_i h2
      have hlen : z.length = m.n := (not_not.mp h1).symm
      have hsum : z.sum = 1 := not_not.mp h2
      constructor
      · intro heq
        exfalso
        cases hdew : m.getDewPointPressure z T (1000 * DBL_EPSILON) 1000 with
        | error e =>
            rw [hdew] at heq
            cases hbub : m.getBubblePointPressure z T (1000 * DBL_EPSILON) 1000 with
            | error e2 =>
                rw [hbub] at heq
                simp only [] at heq
                injection heq with heq
                exact dewP_dispatch_no_assert m z T _ _ hlen hsum (by rw [hdew, heq])
            | ok bres =>
                rw [hbub] at heq
                simp only [] at heq
                injection heq with heq
                exact dewP_dispatch_no_assert m z T _ _ hlen hsum (by rw [hdew, heq])
        | ok dres =>
            rw [hdew] at heq
            cases hbub : m.getBubblePointPressure z T (1000 * DBL_EPSILON) 1000 with
            | error e2 =>
                rw [hbub] at heq
                simp only [] at heq
                injection heq with heq
                exact bubbleP_dispatch_no_assert m z T _ _ hlen hsum (by rw [hbub, heq])
            | ok bres =>
                rw [hbub] at heq
                exact flashUNIFACCore_no_assert m z P T tol kmax rrFuel dres bres heq
      · intro hc
        exact absurd ⟨hlen, hsum⟩ hc

/-- On the concrete mixture every Z-factor evaluation returns the single root 1. -/
theorem cMix_z (P T : ℚ) (y : List ℚ) : cMix.getZfromPT P T y = [1] := by
  norm_num [EOSMixtureM.getZfromPT, getZfromPT_helper, cMix]

/-- On the concrete mixture every fugacity coefficient evaluates to 1. -/
theorem cMix_phi (i : ℕ) (y : List ℚ) (P T Z : ℚ) : cMix.getPhi_i i y P T Z = 1 := by
  unfold EOSMixtureM.getPhi_i getPhi_i_helper
  dsimp only [cMix]
  split <;> rfl

theorem cMix_n : cMix.n = 2 := rfl
theorem cMix_Pcs : cMix.Pcs = [2, 4] := rfl
theorem cMix_Tcs : cMix.Tcs = [1, 1] := rfl
theorem cMix_omegas : cMix.omegas = [0, 0] := rfl
theorem cMix_expO : cMix.expO = fun _ => 1 := rfl
theorem cMix_logO : cMix.logO = fun _ => 0 := rfl

theorem cMix_dew_guess :
    helper_getPd_guess cMix.expO [1/2, 1/2] 1 cMix.Pcs cMix.Tcs cMix.omegas = 8/3 := by
  simp only [helper_getPd_guess, cMix_expO, cMix_Pcs, cMix_Tcs, cMix_omegas,
    List.zip_cons_cons, List.zip_nil_right, List.zipWith_cons_cons,
    List.zipWith_nil_right, List.sum_cons, List.sum_nil]
  norm_num

theorem cMix_bubble_guess :
    helper_getPb_guess cMix.expO [1/2, 1/2] 1 cMix.Pcs cMix.Tcs cMix.omegas = 3 := by
  simp only [helper_getPb_guess, cMix_expO, cMix_Pcs, cMix_Tcs, cMix_omegas,
    List.zip_cons_cons, List.zip_nil_right, List.zipWith_cons_cons,
    List.zipWith_nil_right, List.sum_cons, List.sum_nil]
  norm_num

theorem cMix_wilson (p T : ℚ) :
    wilsonK cMix.expO cMix.logO cMix.Pcs cMix.Tcs cMix.omegas p T = [1, 1] := by
  simp only [wilsonK, cMix_expO, cMix_logO, cMix_Pcs, cMix_Tcs, cMix_omegas,
    List.zip_cons_cons, List.zip_nil_right, List.zipWith_cons_cons,
    List.zipWith_nil_right]

theorem cMix_dew_init :
    dewPInit cMix [1/2, 1/2] 1 = ⟨8/3, [1/2, 1/2], [1, 1], [0, 0], [0, 0]⟩ := by
  simp only [dewPInit, cMix_dew_guess, cMix_wilson, vfull, vdiv, cMix_n,
    List.replicate_succ, List.replicate_zero, List.zipWith_cons_cons,
    List.zipWith_nil_right, List.map_cons, List.map_nil, List.sum_cons, List.sum_nil]
  norm_num

theorem cMix_dew_body (s : DewPSt) :
    dewPBody cMix [1/2, 1/2] 1 s = .ok (⟨s.pd, [1/2, 1/2], [1, 1], [1, 1], [1, 1]⟩, 0) := by
  simp only [dewPBody, cMix_z, cMix_phi, cMix_n, List.range_succ, List.range_zero,
    List.map_cons, List.map_nil, List.map_append, npMax, npMin, List.foldl_nil, vdiv,
    List.zipWith_cons_cons, List.zipWith_nil_right, List.sum_cons, List.sum_nil]
  norm_num [abs_eval]

theorem cMix_bubble_body (s : BubblePSt) :
    bubblePBody cMix [1/2, 1/2] 1 s = .ok (⟨s.pb, [1/2, 1/2], [1, 1], [1, 1], [1, 1]⟩, 0) := by
  simp only [bubblePBody, cMix_z, cMix_phi, cMix_n, List.range_succ, List.range_zero,
    List.map_cons, List.map_nil, List.map_append, npMax, npMin, List.foldl_nil, vdiv, vmul,
    List.zipWith_cons_cons, List.zipWith_nil_right, List.sum_cons, List.sum_nil]
  norm_num [abs_eval]

theorem cMix_bubble_init :
    bubblePInit cMix [1/2, 1/2] 1 = ⟨3, [1/2, 1/2], [1, 1], [0, 0], [0, 0]⟩ := by
  simp only [bubblePInit, cMix_bubble_guess, cMix_wilson, vfull, vdiv, vmul, cMix_n,
    List.replicate_succ, List.replicate_zero, List.zipWith_cons_cons,
    List.zipWith_nil_right, List.map_cons, List.map_nil, List.sum_cons, List.sum_nil]
  norm_num

/-- One-iteration exit of the shared solver loop: the guard passes once, the body
succeeds and brings the error to at most tol, the loop exits with count 1. -/
theorem vleLoop_one_step {σ : Type} (body : σ → Except PyError (σ × ℚ)) (tol : ℚ)
    (kmax : ℕ) (s : σ) (err0 : ℚ) (p : σ × ℚ) (hb : body s = .ok p)
    (h1 : tol < err0) (h2 : ¬ tol < p.2) (h3 : 1 ≤ kmax) :
    vleLoop body tol kmax s err0 = .ok (p.1, p.2, 1) := by
  unfold vleLoop
  obtain ⟨k, rfl⟩ : ∃ k, kmax = k + 1 := ⟨kmax - 1, by omega⟩
  rw [vleLoopAux.eq_def]
  dsimp only
  rw [if_pos h1, hb]
  cases k with
  | zero => rfl
  | succ k =>
      dsimp only
      rw [vleLoopAux.eq_def]
      dsimp only
      rw [if_neg h2]

/-- Concrete dew-pressure solve: pd = 8/3 after one iteration. -/
theorem cMix_dew_eval :
    cMix.getDewPointPressure [1/2, 1/2] 1 (1000 * DBL_EPSILON) 1000 =
      .ok ([1/2, 1/2], 8/3, [1, 1], [1, 1], [1, 1], 1) := by
  have hloop : vleLoop (dewPBody cMix [1/2, 1/2] 1) (1000 * DBL_EPSILON) 1000
      (dewPInit cMix [1/2, 1/2] 1) 100 =
      .ok (⟨8/3, [1/2, 1/2], [1, 1], [1, 1], [1, 1]⟩, 0, 1) := by
    rw [cMix_dew_init,
      vleLoop_one_step _ _ _ _ _ _ (cMix_dew_body _) (by norm_num [DBL_EPSILON])
        (by norm_num [DBL_EPSILON]) (by norm_num)]
  rw [EOSMixtureM.getDewPointPressure, if_pos (show cMix.vle_method = "phi-phi" from rfl),
    dewP_phi_ok cMix [1/2, 1/2] 1 _ _ rfl (by norm_num) _ hloop]
  rfl

/-- Concrete bubble-pressure solve: pb = 3 after one iteration. -/
theorem cMix_bubble_eval :
    cMix.getBubblePointPressure [1/2, 1/2] 1 (1000 * DBL_EPSILON) 1000 =
      .ok ([1/2, 1/2], 3, [1, 1], [1, 1], [1, 1], 1) := by
  have hloop : vleLoop (bubblePBody cMix [1/2, 1/2] 1) (1000 * DBL_EPSILON) 1000
      (bubblePInit cMix [1/2, 1/2] 1) 100 =
      .ok (⟨3, [1/2, 1/2], [1, 1], [1, 1], [1, 1]⟩, 0, 1) := by
    rw [cMix_bubble_init,
      vleLoop_one_step _ _ _ _ _ _ (cMix_bubble_body _) (by norm_num [DBL_EPSILON])
        (by norm_num [DBL_EPSILON]) (by norm_num)]
  rw [EOSMixtureM.getBubblePointPressure, if_pos (show cMix.vle_method = "phi-phi" from rfl),
    bubbleP_phi_ok cMix [1/2, 1/2] 1 _ _ rfl (by norm_num) _ hloop]
  rfl

/-- C3 amended: every solver loop shares the guard err > tol and ite < kmax, so
it stops when the error reaches the tolerance or the count reaches kmax,
whichever fires first, and reaching the cap itself raises no exception: whenever
the loop completes (every body evaluation succeeded, each body may raise the
zero-size-array ValueError of np.max/np.min or, in the flash bodies, hit the
inner Rachford-Rice hang), the count is at most kmax and equals kmax exactly in
the non-converged case, and the solver returns ok carrying that loop output -
EXCEPT getBubblePointPressure_UNIFAC and getFlash_UNIFAC, which read variables
assigned only inside the loop body (y at line 434; phivap and gamma at line 921):
on a completed run of zero iterations these two raise UnboundLocalError instead
of returning, refuting the blanket no-exception reading of the claim (see the
zero-iteration counterexample). -/
theorem solvers_cap_iteration_semantics (m : EOSMixtureM) (x : List ℚ)
    (T P tol : ℚ) (kmax rrFuel : ℕ) (hlen : x.length = m.n) (hsum : x.sum = 1) :
    (∀ (σ : Type) (body : σ → Except PyError (σ × ℚ)) (tol2 : ℚ) (kmax2 : ℕ)
      (s : σ) (err0 : ℚ) (r : σ × ℚ × ℕ), vleLoop body tol2 kmax2 s err0 = .ok r →
      r.2.2 ≤ kmax2 ∧ (tol2 < r.2.1 → r.2.2 = kmax2)) ∧
    (∀ r, vleLoop (bubblePBody m x T) tol kmax (bubblePInit m x T) 100 = .ok r →
      m.getBubblePointPressure_phi_phi x T tol kmax = .ok (bubblePResultOf r)) ∧
    (∀ r, vleLoop (dewPBody m x T) tol kmax (dewPInit m x T) 100 = .ok r →
      m.getDewPointPressure_phi_phi x T tol kmax = .ok (dewPResultOf r)) ∧
    (∀ r, vleLoop (bubblePUBody m x (m.gammaO x T) (m.psatO T) T) tol kmax
        (bubblePUInit m x T) 100 = .ok r →
      (r.1.y = none →
        m.getBubblePointPressure_UNIFAC x T tol kmax = .error .unboundLocalError) ∧
      (∀ yv phivap, r.1.y = some yv → m.getPhiVap yv r.1.pb T = .ok phivap →
        m.getBubblePointPressure_UNIFAC x T tol kmax =
          .ok (bubblePUResultOf m x T yv phivap r))) ∧
    (∀ s0 r phivap, dewPUInit m x T = .ok s0 →
      vleLoop (dewPUBody m x (m.psatO T) T kmax tol) tol kmax s0 100 = .ok r →
      m.getPhiVap x r.1.pd T = .ok phivap →
      m.getDewPointPressure_UNIFAC x T tol kmax = .ok (dewPUResultOf m x T phivap r)) ∧
    (∀ r, vleLoop (bubbleTBody m x P) tol kmax (bubbleTInit m x P) 100 = .ok r →
      m.getBubblePointTemperature_phi_phi x P tol kmax = .ok (bubbleTResultOf r)) ∧
    (∀ r, vleLoop (dewTBody m x P) tol kmax (dewTInit m x P) 100 = .ok r →
      m.getDewPointTemperature_phi_phi x P tol kmax = .ok (dewTResultOf r)) ∧
    (∀ s0 r phivap, bubbleTUInit m x P = .ok s0 →
      vleLoop (bubbleTUBody m x P) tol kmax s0 100 = .ok r →
      m.getPhiVap r.1.y P r.1.tb = .ok phivap →
      m.getBubblePointTemperature_UNIFAC x P tol kmax =
        .ok (bubbleTUResultOf m P phivap r)) ∧
    (∀ s0 r phivap, dewTUInit m x P = .ok s0 →
      vleLoop (dewTUBody m x P) tol kmax s0 100 = .ok r →
      m.getPhiVap x P r.1.td = .ok phivap →
      m.getDewPointTemperature_UNIFAC x P tol kmax =
        .ok (dewTUResultOf m x P phivap r)) ∧
    (∀ dres bres : EqResult,
      m.getDewPointPressure x T (1000 * DBL_EPSILON) 1000 = .ok dres →
      m.getBubblePointPressure x T (1000 * DBL_EPSILON) 1000 = .ok bres →
      dres.2.1 ≤ P → P ≤ bres.2.1 →
      ∀ r, vleLoop (flashBody m x P T rrFuel) tol kmax
          (flashInit m ((bres.2.1 - P) / (bres.2.1 - dres.2.1)) bres.2.2.2.2.1) 100 = .ok r →
        m.getFlash_phi_phi x P T tol kmax rrFuel = .ok (flashResultOf r)) ∧
    (∀ dres bres : EqResult,
      m.getDewPointPressure x T (1000 * DBL_EPSILON) 1000 = .ok dres →
      m.getBubblePointPressure x T (1000 * DBL_EPSILON) 1000 = .ok bres →
      dres.2.1 ≤ P → P ≤ bres.2.1 →
      ∀ r, vleLoop (flashUBody m x (m.psatO T) P T rrFuel) tol kmax
          (flashUInit m ((bres.2.1 - P) / (bres.2.1 - dres.2.1)) bres.2.2.2.2.1) 100 = .ok r →
        (r.1.phivap = none →
          m.getFlash_UNIFAC x P T tol kmax rrFuel = .error .unboundLocalError) ∧
        (∀ pv gv, r.1.phivap = some pv → r.1.gamma = some gv →
          m.getFlash_UNIFAC x P T tol kmax rrFuel = .ok (flashUResultOf pv gv r))) := by
  refine ⟨?_, ?_, ?_, ?_, ?_, ?_, ?_, ?_, ?_, ?_, ?_⟩
  · intro σ body tol2 kmax2 s err0 r hr
    simpa using vleLoopAux_spec body tol2 kmax2 s err0 0 r hr
  · intro r hr
    exact bubbleP_phi_ok m x T tol kmax hlen hsum r hr
  · intro r hr
    exact dewP_phi_ok m x T tol kmax hlen hsum r hr
  · intro r hr
    exact ⟨fun hy => bubbleP_UNIFAC_unbound m x T tol kmax hlen hsum r hr hy,
      fun yv pv hy hpv => bubbleP_UNIFAC_ok m x T tol kmax hlen hsum r yv pv hr hy hpv⟩
  · intro s0 r pv hinit hr hpv
    exact dewP_UNIFAC_ok m x T tol kmax hlen hsum s0 r pv hinit hr hpv
  · intro r hr
    exact bubbleT_phi_ok m x P tol kmax hlen hsum r hr
  · intro r hr
    exact dewT_phi_ok m x P tol kmax hlen hsum r hr
  · intro s0 r pv hinit hr hpv
    exact bubbleT_UNIFAC_ok m x P tol kmax hlen hsum s0 r pv hinit hr hpv
  · intro s0 r pv hinit hr hpv
    exact dewT_UNIFAC_ok m x P tol kmax hlen hsum s0 r pv hinit hr hpv
  · intro dres bres hdew hbub h1 h2 r hr
    rw [flash_phi_eq_core m x P T tol kmax rrFuel dres bres hlen hsum hdew hbub,
      flashPhiPhiCore_loop m x P T tol kmax rrFuel dres bres ⟨h1, h2⟩, hr]
  · intro dres bres hdew hbub h1 h2 r hr
    rw [flash_UNIFAC_eq_core m x P T tol kmax rrFuel dres bres hlen hsum hdew hbub,
      flashUNIFACCore_loop m x P T tol kmax rrFuel dres bres ⟨h1, h2⟩, hr]
    constructor
    · intro hpv
      dsimp only
      rw [hpv]
    · intro pv gv hpv hgv
      dsimp only
      rw [hpv]
      dsimp only
      rw [hgv]

/-- Witness for C3 at a concrete mixture and composition: the bubble-pressure
solve completes its loop in one iteration and returns that loop output. -/
theorem solvers_cap_iteration_semantics_witness :
    cMix.getBubblePointPressure_phi_phi [1/2, 1/2] 1 (1000 * DBL_EPSILON) 1000 =
      .ok (bubblePResultOf (⟨3, [1/2, 1/2], [1, 1], [1, 1], [1, 1]⟩, 0, 1)) :=
  (solvers_cap_iteration_semantics cMix [1/2, 1/2] 1 1 (1000 * DBL_EPSILON) 1000 2 rfl
    (by norm_num)).2.1 (⟨3, [1/2, 1/2], [1, 1], [1, 1], [1, 1]⟩, 0, 1)
    (by rw [cMix_bubble_init,
      vleLoop_one_step _ _ _ _ _ _ (cMix_bubble_body _) (by norm_num [DBL_EPSILON])
        (by norm_num [DBL_EPSILON]) (by norm_num)])

/-- C3 counterexample: with the iteration cap kmax = 0 the loop body never runs,
so the loop completes with zero iterations; getBubblePointPressure_UNIFAC then
reads the never-assigned y at line 434 and getFlash_UNIFAC reads the
never-assigned phivap at line 921 - both raise UnboundLocalError instead of
returning their last estimate with the iteration count. -/
theorem solvers_zero_iteration_unbound_counterexample :
    cMix.getBubblePointPressure_UNIFAC [1/2, 1/2] 1 (1000 * DBL_EPSILON) 0 =
      .error .unboundLocalError ∧
    cMix.getFlash_UNIFAC [1/2, 1/2] 3 1 (100000 * DBL_EPSILON) 0 2 =
      .error .unboundLocalError := by
  constructor
  · unfold EOSMixtureM.getBubblePointPressure_UNIFAC
    rw [if_neg (by simp [cMix_n]), if_neg (by norm_num)]
    rfl
  · rw [flash_UNIFAC_eq_core cMix [1/2, 1/2] 3 1 (100000 * DBL_EPSILON) 0 2
        ([1/2, 1/2], 8/3, [1, 1], [1, 1], [1, 1], 1)
        ([1/2, 1/2], 3, [1, 1], [1, 1], [1, 1], 1) rfl (by norm_num)
        cMix_dew_eval cMix_bubble_eval,
      flashUNIFACCore_loop cMix [1/2, 1/2] 3 1 (100000 * DBL_EPSILON) 0 2 _ _
        ⟨by norm_num, by norm_num⟩]
    rfl

/-- With all K-values equal to 1 the Rachford-Rice residual and slope are 0, so
the Newton step v - 0/0 returns v unchanged (rational convention 0/0 = 0) and the
loop exits after one iteration. -/
theorem rachfordRice_trivial_k (v : ℚ) :
    RachfordRice v [1, 1] [1/2, 1/2] (1 / 10 ^ 8) 500 2 = some v := by
  have hN : rrNewton [1, 1] [1/2, 1/2] v = v := by
    simp [rrNewton, rrf, rrdfdv]
  norm_num [RachfordRice, rachfordRiceGo, hN, abs_eval]

theorem cMix_flash_body (P : ℚ) (s : FlashSt) :
    flashBody cMix [1/2, 1/2] P 1 2 s =
      .ok (⟨s.v, [1/2, 1/2], [1/2, 1/2], [1, 1], [1, 1], [1, 1]⟩, 0) := by
  simp only [flashBody, cMix_z, cMix_phi, cMix_n, List.range_succ, List.range_zero,
    List.map_cons, List.map_nil, List.map_append, List.nil_append, List.cons_append,
    npMax, npMin, List.foldl_nil]
  rw [show vdiv [(1:ℚ), 1] [(1:ℚ), 1] = [1, 1] from by norm_num [vdiv],
    rachfordRice_trivial_k s.v]
  norm_num [vdiv, vmul, abs_eval]

theorem cMix_flash_init :
    flashInit cMix 0 [1, 1] = ⟨0, [1/2, 1/2], [1/2, 1/2], [0, 0], [0, 0], [1, 1]⟩ := by
  simp only [flashInit, cMix_n, vfull, List.replicate_succ, List.replicate_zero]
  norm_num

/-- C1 counterexample: on the concrete mixture the dew and bubble pressures at
(z, T) are 8/3 and 3, and the flash called with P = 3 - equal to the bubble
pressure, hence not strictly between the two - raises no domain error: it runs
and returns ok, refuting the claim that P equal to pb raises ValueError. -/
theorem flash_pressure_bracket_boundary_counterexample :
    cMix.getDewPointPressure [1/2, 1/2] 1 (1000 * DBL_EPSILON) 1000 =
      .ok ([1/2, 1/2], 8/3, [1, 1], [1, 1], [1, 1], 1) ∧
    cMix.getBubblePointPressure [1/2, 1/2] 1 (1000 * DBL_EPSILON) 1000 =
      .ok ([1/2, 1/2], 3, [1, 1], [1, 1], [1, 1], 1) ∧
    cMix.getFlash_phi_phi [1/2, 1/2] 3 1 (100000 * DBL_EPSILON) 1000 2 =
      .ok ([1/2, 1/2], [1/2, 1/2], 0, [1, 1], [1, 1], [1, 1], 1) := by
  refine ⟨cMix_dew_eval, cMix_bubble_eval, ?_⟩
  rw [flash_phi_eq_core cMix [1/2, 1/2] 3 1 (100000 * DBL_EPSILON) 1000 2
      ([1/2, 1/2], 8/3, [1, 1], [1, 1], [1, 1], 1)
      ([1/2, 1/2], 3, [1, 1], [1, 1], [1, 1], 1) rfl (by norm_num)
      cMix_dew_eval cMix_bubble_eval,
    flashPhiPhiCore_loop cMix [1/2, 1/2] 3 1 (100000 * DBL_EPSILON) 1000 2
      _ _ ⟨by norm_num, by norm_num⟩]
  have hv : ((3 : ℚ) - 3) / (3 - (8/3 : ℚ)) = 0 := by norm_num
  rw [show (([1/2, 1/2], 3, [1, 1], [1, 1], [1, 1], 1) : EqResult).2.1 = (3 : ℚ) from rfl]
  rw [show (([1/2, 1/2], (8:ℚ)/3, [1, 1], [1, 1], [1, 1], 1) : EqResult).2.1 = ((8:ℚ)/3) from rfl]
  rw [hv, cMix_flash_init,
    vleLoop_one_step _ _ _ _ _ _ (cMix_flash_body 3 _) (by norm_num [DBL_EPSILON])
      (by norm_num [DBL_EPSILON]) (by norm_num)]
  rfl

/-- C1 amended: with the feed passing the asserts and the dew and bubble
sub-solves (run first, at the flash-internal default tolerances) returning pd and
pb, both flash variants raise the domain error ValueError exactly when P lies
outside the CLOSED bracket [pd, pb] - i.e. when P < pd or P > pb - and on the
error no flash iteration runs. Calls with P equal to pb or pd are accepted and
proceed to the flash loop, contrary to the original strict-betweenness claim
(see the boundary counterexample). -/
theorem flash_pressure_bracket_check (m : EOSMixtureM) (z : List ℚ) (P T tol : ℚ)
    (kmax rrFuel : ℕ) (dres bres : EqResult)
    (hlen : z.length = m.n) (hsum : z.sum = 1)
    (hdew : m.getDewPointPressure z T (1000 * DBL_EPSILON) 1000 = .ok dres)
    (hbub : m.getBubblePointPressure z T (1000 * DBL_EPSILON) 1000 = .ok bres) :
    (m.getFlash_phi_phi z P T tol kmax rrFuel = .error .valueError ↔
      ¬(dres.2.1 ≤ P ∧ P ≤ bres.2.1)) ∧
    (m.getFlash_UNIFAC z P T tol kmax rrFuel = .error .valueError ↔
      ¬(dres.2.1 ≤ P ∧ P ≤ bres.2.1)) := by
  rw [flash_phi_eq_core m z P T tol kmax rrFuel dres bres hlen hsum hdew hbub,
    flash_UNIFAC_eq_core m z P T tol kmax rrFuel dres bres hlen hsum hdew hbub]
  exact ⟨flashPhiPhiCore_valueError_iff m z P T tol kmax rrFuel dres bres,
    flashUNIFACCore_valueError_iff m z P T tol kmax rrFuel dres bres⟩

/-- Witness for C1 amended: on the concrete mixture, P = 4 lies above pb = 3 and
the flash raises the domain error. -/
theorem flash_pressure_bracket_check_witness :
    cMix.getFlash_phi_phi [1/2, 1/2] 4 1 (100000 * DBL_EPSILON) 1000 2 =
      .error .valueError :=
  (flash_pressure_bracket_check cMix [1/2, 1/2] 4 1 (100000 * DBL_EPSILON) 1000 2
    ([1/2, 1/2], 8/3, [1, 1], [1, 1], [1, 1], 1)
    ([1/2, 1/2], 3, [1, 1], [1, 1], [1, 1], 1)
    rfl (by norm_num) cMix_dew_eval cMix_bubble_eval).1.mpr (by norm_num)

/-- C6 amended: every top-level equilibrium solver guards its composition input
by an assertion-style check on the vector length and on the sum before any
iteration begins, and fails fast with an assertion failure exactly when the
length mismatches or the computed sum differs from 1. The sum check is the exact
equality np.sum(x) == 1.0, not a tolerance band: a composition whose sum is off
by any nonzero amount is rejected (see the tolerance counterexample). -/
theorem solver_composition_assert_exact (m : EOSMixtureM) (x : List ℚ)
    (T P tol : ℚ) (kmax rrFuel : ℕ) :
    (m.getBubblePointPressure_phi_phi x T tol kmax = .error .assertError ↔
      ¬(x.length = m.n ∧ x.sum = 1)) ∧
    (m.getDewPointPressure_phi_phi x T tol kmax = .error .assertError ↔
      ¬(x.length = m.n ∧ x.sum = 1)) ∧
    (m.getBubblePointPressure_UNIFAC x T tol kmax = .error .assertError ↔
      ¬(x.length = m.n ∧ x.sum = 1)) ∧
    (m.getDewPointPressure_UNIFAC x T tol kmax = .error .assertError ↔
      ¬(x.length = m.n ∧ x.sum = 1)) ∧
    (m.getBubblePointTemperature_phi_phi x P tol kmax = .error .assertError ↔
      ¬(x.length = m.n ∧ x.sum = 1)) ∧
    (m.getDewPointTemperature_phi_phi x P tol kmax = .error .assertError ↔
      ¬(x.length = m.n ∧ x.sum = 1)) ∧
    (m.getBubblePointTemperature_UNIFAC x P tol kmax = .error .assertError ↔
      ¬(x.length = m.n ∧ x.sum = 1)) ∧
    (m.getDewPointTemperature_UNIFAC x P tol kmax = .error .assertError ↔
      ¬(x.length = m.n ∧ x.sum = 1)) ∧
    (m.getFlash_phi_phi x P T tol kmax rrFuel = .error .assertError ↔
      ¬(x.length = m.n ∧ x.sum = 1)) ∧
    (m.getFlash_UNIFAC x P T tol kmax rrFuel = .error .assertError ↔
      ¬(x.length = m.n ∧ x.sum = 1)) :=
  ⟨bubbleP_phi_assert_iff m x T tol kmax, dewP_phi_assert_iff m x T tol kmax,
    bubbleP_UNIFAC_assert_iff m x T tol kmax, dewP_UNIFAC_assert_iff m x T tol kmax,
    bubbleT_phi_assert_iff m x P tol kmax, dewT_phi_assert_iff m x P tol kmax,
    bubbleT_UNIFAC_assert_iff m x P tol kmax, dewT_UNIFAC_assert_iff m x P tol kmax,
    flash_phi_assert_iff m x P T tol kmax rrFuel,
    flash_UNIFAC_assert_iff m x P T tol kmax rrFuel⟩

/-- C6 counterexample: a two-entry composition of the right length whose sum is
1 + 1e-12 - within any reasonable numerical tolerance of 1 - is rejected by the
assertion check, refuting the claim that compositions summing to 1 within
numerical tolerance are accepted. -/
theorem solver_composition_tolerance_counterexample :
    cMix.getBubblePointPressure_phi_phi [1/2, 1/2 + 1/10^12] 1
      (1000 * DBL_EPSILON) 1000 = .error .assertError ∧
    ([1/2, 1/2 + 1/10^12] : List ℚ).length = cMix.n ∧
    |([1/2, 1/2 + 1/10^12] : List ℚ).sum - 1| ≤ 1/10^9 := by
  refine ⟨?_, rfl, by norm_num [abs_eval]⟩
  exact (bubbleP_phi_assert_iff cMix [1/2, 1/2 + 1/10^12] 1 (1000 * DBL_EPSILON)
    1000).mpr (by norm_num)
